import Mathlib

/-!
# canlite: browser glue (static/login/index.js, static/settings/index.js)

A shallow embedding of the two client scripts.  Browser storage is a list of
key/value pairs read by first match, script-visible browser state is a record,
and every handler is a function on that record.  What a handler does to the
outside world (navigation, popups, alerts, timers) is appended to a log.
-/

namespace Canlite

/-! ## Web Storage (localStorage / sessionStorage) -/

/-- A storage area: string keys, string values, read by first match. -/
abbrev Storage := List (String × String)

/-- The call `storage.getItem(k)`: the stored value, or `none` for JS `null`. -/
def getItem : Storage → String → Option String
  | [], _ => none
  | (k', v) :: rest, k => if k' = k then some v else getItem rest k

/-- The call `storage.setItem(k, v)`: overwrite in place, or append a new key. -/
def setItem : Storage → String → String → Storage
  | [], k, v => [(k, v)]
  | (k', v') :: rest, k, v =>
    if k' = k then (k, v) :: rest else (k', v') :: setItem rest k v

/-- The call `storage.removeItem(k)`. -/
def removeItem (s : Storage) (k : String) : Storage :=
  s.filter (fun p => !(p.1 == k))

/-- The call `storage.clear()`. -/
def clear (_ : Storage) : Storage := []

/-! ## Plain JS objects with string values -/

/-- An object literal / parsed JSON object whose property values are strings;
a property read takes the first pair with that name. -/
abbrev JsObject := List (String × String)

/-- Property read `o[k]`, `none` for `undefined`. -/
def getProp (o : JsObject) (k : String) : Option String := getItem o k

/-- Names visited by `for (const key in o)`: each own property name once. -/
def ownKeys : JsObject → List String
  | [] => []
  | (k, _) :: rest => k :: (ownKeys rest).filter (fun k' => !(k' == k))

/-- The coercion `String(v)` that `setItem` applies to its value argument. -/
def toStorageString : Option String → String
  | some v => v
  | none => "undefined"

/-- The statement `delete o[k]`. -/
def deleteProp (o : JsObject) (k : String) : JsObject :=
  o.filter (fun p => !(p.1 == k))

/-- Property names found on the prototype chain of a `Storage` object
(`Storage.prototype`, then `Object.prototype`).  A stored key with one of
these names is shadowed: it is not an own property of `localStorage`. -/
def storagePrototypeNames : List String :=
  ["length", "key", "getItem", "setItem", "removeItem", "clear",
   "constructor", "__defineGetter__", "__defineSetter__", "hasOwnProperty",
   "__lookupGetter__", "__lookupSetter__", "isPrototypeOf", "propertyIsEnumerable",
   "toString", "valueOf", "__proto__", "toLocaleString"]

/-- The expression `{ ...localStorage }`: one own property per stored key
that no prototype member shadows. -/
def spreadStorage (ls : Storage) : JsObject :=
  ls.filter (fun p => !(storagePrototypeNames.contains p.1))

/-! ## static/login/index.js: register and login submit handlers -/

/-- Body of the POST to /api/saveGameData: `{ token, localStorageData }`. -/
structure SaveRequest where
  token : String
  localStorageData : JsObject
deriving DecidableEq, Repr

/-- The register submit handler (lines 162-199), as far as the request it
sends: `response` is the text of the /api/register answer, `none` when the
fetch rejected.  No request is sent for a rejected fetch or for "exists". -/
def registerSubmit (ls : Storage) (response : Option String) : Option SaveRequest :=
  match response with
  | none => none
  | some token =>
    if token = "exists" then none
    else
      let localStorageData := deleteProp (spreadStorage ls) "token"
      some { token := token, localStorageData := localStorageData }

/-- The loop `for (const key in storageData) localStorage.setItem(key, storageData[key])`. -/
def forInSetItem (storageData : JsObject) (ls : Storage) : Storage :=
  (ownKeys storageData).foldl
    (fun s key => setItem s key (toStorageString (getProp storageData key))) ls

/-- The login submit handler (lines 114-159), as far as persistent storage:
`result` is the text of the /api/login answer and `gameData` the `gameData`
property of the /api/loadGameData answer (`none` when missing or falsy). -/
def loginSubmit (ls : Storage) (result : String) (gameData : Option JsObject) : Storage :=
  if result = "acc" then ls
  else if result = "pass" then ls
  else
    match gameData with
    | none => ls
    | some storageData =>
      let ls1 := clear ls
      let ls2 := forInSetItem storageData ls1
      setItem ls2 "token" result

/-! ## JS string and truthiness helpers -/

/-- Whether the first list of characters starts the second. -/
def startsWithChars : List Char → List Char → Bool
  | [], _ => true
  | _ :: _, [] => false
  | a :: p, b :: s => a == b && startsWithChars p s

/-- Whether `sub` occurs somewhere in the list of characters. -/
def includesChars : List Char → List Char → Bool
  | [], sub => startsWithChars sub []
  | c :: rest, sub => startsWithChars sub (c :: rest) || includesChars rest sub

/-- The call `s.includes(sub)`. -/
def includes (s sub : String) : Bool := includesChars s.data sub.data

/-- Code points that `String.prototype.trim` strips (WhiteSpace and
LineTerminator of ECMAScript). -/
def isJsWhiteSpace (c : Char) : Bool :=
  let n := c.toNat
  n = 0x09 || n = 0x0A || n = 0x0B || n = 0x0C || n = 0x0D || n = 0x20 || n = 0xA0 ||
  n = 0x1680 || (0x2000 ≤ n && n ≤ 0x200A) || n = 0x2028 || n = 0x2029 || n = 0x202F ||
  n = 0x205F || n = 0x3000 || n = 0xFEFF

/-- The call `s.trim()`. -/
def jsTrim (s : String) : String :=
  String.mk ((((s.data.dropWhile isJsWhiteSpace).reverse).dropWhile isJsWhiteSpace).reverse)

/-- Truthiness of a string-or-null value: `null` and "" are falsy. -/
def truthy : Option String → Bool
  | some v => !(v == "")
  | none => false

/-- The expression `v || d` for a string-or-null `v` and a string `d`. -/
def orDefault (v : Option String) (d : String) : String :=
  match v with
  | some x => if x = "" then d else x
  | none => d

/-! ## static/settings/index.js: state -/

/-- The record `this.settings`.  `openInAboutBlank` is the extra property that
only `resetSettings` writes (`none` while the property does not exist). -/
structure Settings where
  customTitle : String
  customFavicon : String
  panicKey : String
  panicUrl : String
  openInAboutBlank : Option Bool
deriving DecidableEq, Repr

/-- What a keydown handler reads of its event. -/
structure KeyEvent where
  key : String
  ctrlKey : Bool
  metaKey : Bool
  altKey : Bool
  shiftKey : Bool
deriving DecidableEq, Repr

/-- Deferred work handed to `setTimeout` / the window `load` event. -/
inductive Task
  | initAboutBlank
  | bindSettingsEvents
  | redirect (pLink : String)
deriving DecidableEq, Repr

/-- What a handler does to the world outside script-visible state. -/
inductive Effect
  | preventDefault
  | setLocationHref (url : String)
  | locationReplace (url : String)
  | windowOpen (url target : String)
  | alert (msg : String)
  | cloakPopup (href : String) (stamp : Nat)
  | setTimeout (task : Task) (ms : Nat)
  | onLoadOnce (task : Task) (ms : Nat)
  | stopPropagation
  | stopImmediatePropagation
  | setIframeSrc (index : Nat) (url : String)
deriving DecidableEq, Repr

/-- A keydown listener registered on the document. -/
inductive Listener
  | earlyPanic (panicKey panicUrl : String)
  | managerPanic (id : Nat)
deriving DecidableEq, Repr

/-- The subtree that `createSettingsModal` writes through `innerHTML`: the
values of the inputs, the `data-bound` markers and the number of listeners on
each control. -/
structure ModalContent where
  customTitle : String
  customFavicon : String
  panicKey : String
  panicUrl : String
  aboutBlankCheck : Bool
  closeBound : Bool
  closeClick : Nat
  formBound : Bool
  formSubmit : Nat
  resetClick : Nat
  checkChange : Nat
deriving DecidableEq, Repr

/-- The element `#settingsModal`: `content` is `none` for the bare div that
the settings-button handler appends. -/
structure ModalEl where
  display : String
  content : Option ModalContent
deriving DecidableEq, Repr

/-- Browser state that the scripts read and write. -/
structure Page where
  localStorage : Storage
  sessionStorage : Storage
  title : String
  favicon : Option String
  keydownListeners : List Listener
  nextHandler : Nat
  settingsModal : Option ModalEl
  windowClickHandlers : Nat
  linkInterceptors : Nat
deriving DecidableEq, Repr

/-- Fields of a `SettingsManager` instance. -/
structure Manager where
  settings : Settings
  panicHandler : Option Nat
  modalClickHandler : Bool
  aboutBlankInitStarted : Bool
  aboutBlankRunning : Bool
  redirected : Option Bool
deriving DecidableEq, Repr

/-- A manager, the page it lives in, and the log of what it did. -/
structure St where
  mgr : Manager
  page : Page
  log : List Effect
deriving DecidableEq, Repr

/-- How a call ended. -/
inductive Completion
  | returned
  | threw
deriving DecidableEq, Repr

/-- Outcome of evaluating `window !== top`. -/
inductive FrameProbe
  | top
  | framed
  | throws
deriving DecidableEq, Repr

/-- Outcome of `open("about:blank", "_blank")`. -/
inductive PopupResult
  | null
  | closed
  | opened
deriving DecidableEq, Repr

/-- What the browser answers during one run. -/
structure Env where
  frameProbe : FrameProbe
  userAgent : String
  popup : PopupResult
  readyComplete : Bool
  href : String
  now : Nat
deriving DecidableEq, Repr

/-- The guarded probe `try { inFrame = window !== top } catch { inFrame = true }`. -/
def inFrame (env : Env) : Bool :=
  match env.frameProbe with
  | .top => false
  | .framed => true
  | .throws => true

/-- The call `document.addEventListener('keydown', l)`: a listener already
registered is not added again. -/
def addListener (ls : List Listener) (l : Listener) : List Listener :=
  if l ∈ ls then ls else ls ++ [l]

/-- The call `document.removeEventListener('keydown', l)`. -/
def removeListener (ls : List Listener) (l : Listener) : List Listener :=
  ls.erase l

/-! ## static/settings/index.js: SettingsManager methods -/

/-- The method `loadSettings` (lines 67-74). -/
def loadSettings (s : St) : St :=
  let ls := s.page.localStorage
  { s with mgr := { s.mgr with settings :=
      { customTitle := orDefault (getItem ls "settings_customTitle") ""
        customFavicon := orDefault (getItem ls "settings_customFavicon") ""
        panicKey := orDefault (getItem ls "settings_panicKey") "`"
        panicUrl := orDefault (getItem ls "settings_panicUrl") "https://drive.google.com"
        openInAboutBlank := none } } }

/-- The method `saveSettings` (lines 77-82). -/
def saveSettings (s : St) : St :=
  let ls := s.page.localStorage
  let ls := setItem ls "settings_customTitle" s.mgr.settings.customTitle
  let ls := setItem ls "settings_customFavicon" s.mgr.settings.customFavicon
  let ls := setItem ls "settings_panicKey" s.mgr.settings.panicKey
  let ls := setItem ls "settings_panicUrl" s.mgr.settings.panicUrl
  { s with page := { s.page with localStorage := ls } }

/-- The method `applySettings` (lines 85-101): a non-empty title replaces the
document title, a non-empty favicon URL becomes the href of the icon link
(created when missing). -/
def applySettings (s : St) : St :=
  let page := s.page
  let page :=
    if s.mgr.settings.customTitle = "" then page
    else { page with title := s.mgr.settings.customTitle }
  let page :=
    if s.mgr.settings.customFavicon = "" then page
    else { page with favicon := some s.mgr.settings.customFavicon }
  { s with page := page }

/-- The arrow function stored in `this._panicHandler` (lines 111-121); it reads
`this.settings` when the event arrives.  `activeTag` is
`document.activeElement.tagName`. -/
def panicHandler (settings : Settings) (e : KeyEvent) (activeTag : String) : List Effect :=
  if e.key = settings.panicKey && !e.ctrlKey && !e.metaKey && !e.altKey then
    if activeTag ≠ "INPUT" && activeTag ≠ "TEXTAREA" then
      [Effect.preventDefault, Effect.setLocationHref settings.panicUrl]
    else []
  else []

/-- The keydown listener of login/index.js (lines 6-16), over the two
constants captured when that script ran. -/
def earlyPanicHandler (panicKey panicUrl : String) (e : KeyEvent) (activeTag : String) :
    List Effect :=
  if e.key = panicKey && !e.ctrlKey && !e.metaKey && !e.altKey then
    if activeTag ≠ "INPUT" && activeTag ≠ "TEXTAREA" then
      [Effect.preventDefault, Effect.setLocationHref panicUrl]
    else []
  else []

/-- The IIFE of login/index.js (lines 2-17): read the two constants and
register the early listener. -/
def earlyPanicInit (p : Page) : Page :=
  let panicKey := orDefault (getItem p.localStorage "settings_panicKey") "`"
  let panicUrl := orDefault (getItem p.localStorage "settings_panicUrl") "https://drive.google.com"
  { p with keydownListeners := addListener p.keydownListeners (.earlyPanic panicKey panicUrl) }

/-- The method `initPanicSystem` (lines 104-124): drop the previous handler if
there is one, create a new closure, register it. -/
def initPanicSystem (s : St) : St :=
  let listeners :=
    match s.mgr.panicHandler with
    | some h => removeListener s.page.keydownListeners (.managerPanic h)
    | none => s.page.keydownListeners
  let h := s.page.nextHandler
  { s with
    mgr := { s.mgr with panicHandler := some h }
    page := { s.page with
      keydownListeners := addListener listeners (.managerPanic h)
      nextHandler := h + 1 } }

/-- What one listener does with a keydown event. -/
def runListener (s : St) (e : KeyEvent) (activeTag : String) : Listener → List Effect
  | .earlyPanic k u => earlyPanicHandler k u e activeTag
  | .managerPanic _ => panicHandler s.mgr.settings e activeTag

/-- Dispatch of one keydown event to the document's listeners, in order. -/
def dispatchKeydown (s : St) (e : KeyEvent) (activeTag : String) : List Effect :=
  (s.page.keydownListeners.map (runListener s e activeTag)).flatten

/-- The markup of `createSettingsModal`: empty inputs, unchecked box, nothing
bound yet. -/
def freshModalContent : ModalContent :=
  { customTitle := "", customFavicon := "", panicKey := "", panicUrl := ""
    aboutBlankCheck := false
    closeBound := false, closeClick := 0
    formBound := false, formSubmit := 0
    resetClick := 0, checkChange := 0 }

/-- The method `createSettingsModal` (lines 178-257): nothing when
`#settingsModal` exists; otherwise append the hidden modal with its markup and
attach the reset and checkbox handlers. -/
def createSettingsModal (s : St) : St :=
  match s.page.settingsModal with
  | some _ => s
  | none =>
    let content := { freshModalContent with resetClick := 1, checkChange := 1 }
    { s with page := { s.page with
        settingsModal := some { display := "none", content := some content } } }

/-- The method `bindSettingsEvents` (lines 141-175). -/
def bindSettingsEvents (s : St) : St :=
  match s.page.settingsModal with
  | none => s
  | some modal =>
    let content := modal.content.map (fun c =>
      let c := if !c.closeBound then { c with closeBound := true, closeClick := c.closeClick + 1 }
               else c
      if !c.formBound then { c with formBound := true, formSubmit := c.formSubmit + 1 } else c)
    let bindWindow := !s.mgr.modalClickHandler
    { s with
      mgr := { s.mgr with modalClickHandler := true }
      page := { s.page with
        settingsModal := some { modal with content := content }
        windowClickHandlers :=
          if bindWindow then s.page.windowClickHandlers + 1 else s.page.windowClickHandlers } }

/-- The method `initSettingsModal` (lines 127-138). -/
def initSettingsModal (s : St) : St :=
  let s := createSettingsModal s
  let s := bindSettingsEvents s
  { s with log := s.log ++ [Effect.setTimeout Task.bindSettingsEvents 50] }

/-- The method `saveSettingsFromForm` (lines 272-285).  Without the inputs the
first `getElementById(...).value` throws before anything is written. -/
def saveSettingsFromForm (s : St) : Completion × St :=
  match s.page.settingsModal.bind (fun m => m.content) with
  | none => (.threw, s)
  | some c =>
    let settings := { s.mgr.settings with
      customTitle := jsTrim c.customTitle
      customFavicon := jsTrim c.customFavicon
      panicKey := orDefault (some c.panicKey) "`"
      panicUrl := orDefault (some c.panicUrl) "https://drive.google.com" }
    let s := { s with mgr := { s.mgr with settings := settings } }
    let s := saveSettings s
    let s := applySettings s
    let s := initPanicSystem s
    (.returned, { s with log := s.log ++ [Effect.alert "Settings saved successfully!"] })

/-- The method `resetSettings` (lines 288-298). -/
def resetSettings (s : St) : St :=
  let s := { s with mgr := { s.mgr with settings :=
    { customTitle := "", customFavicon := "", panicKey := "`"
      panicUrl := "https://drive.google.com", openInAboutBlank := some false } } }
  let s := saveSettings s
  applySettings s

/-- The method `initIframeLinkInterception` (lines 302-396), as far as
registration: one more capturing click listener on the document. -/
def initIframeLinkInterception (s : St) : St :=
  { s with page := { s.page with linkInterceptors := s.page.linkInterceptors + 1 } }

/-- The method `initAboutBlank` (lines 399-524). -/
def initAboutBlank (env : Env) (s : St) : Completion × St :=
  if s.mgr.aboutBlankRunning then (.returned, s)
  else
    let blankerCheck := getItem s.page.localStorage "aboutBlank"
    if blankerCheck = some "true" then
      let alreadyActivated := getItem s.page.sessionStorage "aboutBlankActivated"
      if truthy alreadyActivated then (.returned, s)
      else
        let s := { s with mgr := { s.mgr with aboutBlankRunning := true } }
        match env.frameProbe with
        | .throws =>
          -- line 428 evaluates `window !== top` again, outside the try block
          (.threw, s)
        | .framed =>
          let mgr := { s.mgr with aboutBlankRunning := false, redirected := some false }
          let s := { s with mgr := mgr }
          (.returned, initIframeLinkInterception s)
        | .top =>
          if !includes env.userAgent "Firefox" then
            let ss := setItem s.page.sessionStorage "aboutBlankActivated" "true"
            let s := { s with page := { s.page with sessionStorage := ss } }
            let s := { s with log := s.log ++ [Effect.windowOpen "about:blank" "_blank"] }
            match env.popup with
            | .opened =>
              let s := { s with log := s.log ++ [Effect.cloakPopup env.href env.now] }
              let pLink := orDefault (getItem s.page.localStorage "pLink") "https://www.google.com"
              (.returned, { s with log := s.log ++ [Effect.setTimeout (Task.redirect pLink) 100] })
            | _ =>
              let msg := "Please allow popups and redirects for about:blank cloak to work."
              let s := { s with log := s.log ++ [Effect.alert msg] }
              let ss := removeItem s.page.sessionStorage "aboutBlankActivated"
              let s := { s with page := { s.page with sessionStorage := ss } }
              (.returned, { s with mgr := { s.mgr with aboutBlankRunning := false } })
          else
            (.returned, { s with mgr := { s.mgr with aboutBlankRunning := false } })
    else (.returned, s)

/-- The deferred redirect callback (lines 504-512); `currentUrl` is
`document.location.href` when the timer fires. -/
def redirectStep (currentUrl pLink : String) (s : St) : St :=
  if !includes currentUrl "google.com" && !includes currentUrl "drive.google.com" then
    { s with log := s.log ++ [Effect.locationReplace pLink] }
  else s

/-- The cloak check of `init` (lines 18-49): defer one `initAboutBlank` call
when the session flag is falsy and the toggle is "true", at most once per
manager. -/
def initCloakCheck (env : Env) (s : St) : St :=
  let alreadyActivated := getItem s.page.sessionStorage "aboutBlankActivated"
  let aboutBlankEnabled := getItem s.page.localStorage "aboutBlank" = some "true"
  if !truthy alreadyActivated && aboutBlankEnabled then
    if !s.mgr.aboutBlankInitStarted then
      let s := { s with mgr := { s.mgr with aboutBlankInitStarted := true } }
      if env.readyComplete then
        { s with log := s.log ++ [Effect.setTimeout Task.initAboutBlank 50] }
      else
        { s with log := s.log ++ [Effect.onLoadOnce Task.initAboutBlank 50] }
    else s
  else s

/-- The frame check of `init` (lines 51-63). -/
def initFrameCheck (env : Env) (s : St) : St :=
  if inFrame env && getItem s.page.sessionStorage "aboutBlankActivated" = some "true" then
    initIframeLinkInterception s
  else s

/-- The method `init` (lines 7-64). -/
def init (env : Env) (s : St) : St :=
  let s := loadSettings s
  let s := applySettings s
  let s := initPanicSystem s
  let s := initSettingsModal s
  let s := initCloakCheck env s
  initFrameCheck env s

/-- The fields of an instance before its constructor body runs. -/
def newManager : Manager :=
  { settings := { customTitle := "", customFavicon := "", panicKey := "", panicUrl := ""
                  openInAboutBlank := none }
    panicHandler := none
    modalClickHandler := false
    aboutBlankInitStarted := false
    aboutBlankRunning := false
    redirected := none }

/-- The expression `new SettingsManager()` on a page: the constructor calls `init`. -/
def construct (env : Env) (p : Page) : St :=
  init env { mgr := newManager, page := p, log := [] }

/-! ## Timers and page loads -/

/-- Tasks that a stretch of the log handed to a timer or to the load event. -/
def scheduled : List Effect → List Task
  | [] => []
  | Effect.setTimeout t _ :: rest => t :: scheduled rest
  | Effect.onLoadOnce t _ :: rest => t :: scheduled rest
  | _ :: rest => scheduled rest

/-- Run one deferred task; an exception ends that task only. -/
def runTask (env : Env) (currentUrl : String) : Task → St → St
  | .initAboutBlank, s => (initAboutBlank env s).2
  | .bindSettingsEvents, s => bindSettingsEvents s
  | .redirect pLink, s => redirectStep currentUrl pLink s

/-- Run deferred tasks in the order they were scheduled. -/
def runTasks (env : Env) (currentUrl : String) (ts : List Task) (s : St) : St :=
  ts.foldl (fun acc t => runTask env currentUrl t acc) s

/-- One page load of the settings script: construct the manager, then fire the
tasks it deferred, then the tasks those deferred.  `currentUrl` is the main
window's location when the redirect timer fires. -/
def pageLoad (env : Env) (currentUrl : String) (p : Page) : St :=
  let s0 := construct env p
  let s1 := runTasks env currentUrl (scheduled s0.log) s0
  runTasks env currentUrl (scheduled (s1.log.drop s0.log.length)) s1

/-- ASCII white space of the HTML standard: TAB, LF, FF, CR and SPACE. -/
def isAsciiWhiteSpace (c : Char) : Bool :=
  let n := c.toNat
  n = 0x09 || n = 0x0A || n = 0x0C || n = 0x0D || n = 0x20

/-- Value sanitisation of an `input type="text"`: strip LF and CR. -/
def sanitizeText (s : String) : String :=
  String.mk (s.data.filter (fun c => !(c.toNat = 0x0A || c.toNat = 0x0D)))

/-- Value sanitisation of an `input type="url"`: strip LF and CR, then strip
leading and trailing ASCII white space. -/
def sanitizeUrl (s : String) : String :=
  let chars := (sanitizeText s).data
  String.mk ((((chars.dropWhile isAsciiWhiteSpace).reverse).dropWhile isAsciiWhiteSpace).reverse)

/-- What the user types into the four inputs of the settings form (the panic
key within the one character that its `maxlength` allows). -/
structure FormValues where
  customTitle : String
  customFavicon : String
  panicKey : String
  panicUrl : String
deriving DecidableEq, Repr

/-- Typing `f` into the inputs of the settings form (when it exists): each
input holds the typed text after the value sanitisation of its type, text for
`#customTitle` and `#panicKey`, url for `#customFavicon` and `#panicUrl`. -/
def fillForm (f : FormValues) (s : St) : St :=
  match s.page.settingsModal with
  | none => s
  | some modal =>
    let content := modal.content.map (fun c =>
      { c with
        customTitle := sanitizeText f.customTitle
        customFavicon := sanitizeUrl f.customFavicon
        panicKey := sanitizeText f.panicKey
        panicUrl := sanitizeUrl f.panicUrl })
    { s with page := { s.page with settingsModal := some { modal with content := content } } }

/-- One reconfiguration: fill the form, then `saveSettingsFromForm`. -/
def reconfigure (s : St) (f : FormValues) : St :=
  (saveSettingsFromForm (fillForm f s)).2

/-- Whether a keydown listener is a closure created by `initPanicSystem`. -/
def isManagerPanic : Listener → Bool
  | .managerPanic _ => true
  | .earlyPanic _ _ => false

/-- Number of panic listeners of the manager among keydown listeners. -/
def managerListenerCount (ls : List Listener) : Nat :=
  (ls.filter isManagerPanic).length

/-- Number of navigations (`location.href = ...` or `location.replace`) in a log. -/
def navigationCount (log : List Effect) : Nat :=
  (log.filter (fun e => match e with
    | .setLocationHref _ => true
    | .locationReplace _ => true
    | _ => false)).length

/-- Number of `open(...)` calls in a log. -/
def popupCount (log : List Effect) : Nat :=
  (log.filter (fun e => match e with
    | .windowOpen _ _ => true
    | _ => false)).length

/-- What the popup attempt adds to the log, by outcome of `open`. -/
def attemptTail (env : Env) (ls : Storage) : List Effect :=
  match env.popup with
  | .opened =>
    [Effect.cloakPopup env.href env.now,
     Effect.setTimeout (Task.redirect (orDefault (getItem ls "pLink") "https://www.google.com")) 100]
  | _ => [Effect.alert "Please allow popups and redirects for about:blank cloak to work."]

/-- The navigations (`location.href = ...`, `location.replace(...)`) of a log, in order. -/
def navigations (log : List Effect) : List Effect :=
  log.filter (fun e => match e with
    | .setLocationHref _ => true
    | .locationReplace _ => true
    | _ => false)

/-- The manager holds one handler and it is the only one it has registered:
the keydown listeners are those of `pre` followed by that handler. -/
def PanicInv (pre : List Listener) (s : St) : Prop :=
  ∃ h, s.mgr.panicHandler = some h ∧
    s.page.keydownListeners = pre ++ [Listener.managerPanic h]

/-- Whether the settings form with its inputs is in the document. -/
def hasForm (s : St) : Bool :=
  match s.page.settingsModal with
  | some modal => modal.content.isSome
  | none => false

/-! ## Sample inputs -/

/-- A page with the cloak toggle on and nothing else stored. -/
def cloakPage : Page :=
  { localStorage := [("aboutBlank", "true")]
    sessionStorage := []
    title := "Games"
    favicon := none
    keydownListeners := []
    nextHandler := 0
    settingsModal := none
    windowClickHandlers := 0
    linkInterceptors := 0 }

/-- A top-level Chrome window whose popups open. -/
def chromeEnv : Env :=
  { frameProbe := FrameProbe.top
    userAgent := "Mozilla/5.0 (X11; Linux x86_64) Chrome/120.0 Safari/537.36"
    popup := PopupResult.opened
    readyComplete := true
    href := "https://canlite.example/play"
    now := 1700000000000 }

/-- A manager whose constructor has not run yet, on page `p`. -/
def freshSt (p : Page) : St := { mgr := newManager, page := p, log := [] }

/-- A keydown of the default panic key, with or without Shift. -/
def backtickKey (shift : Bool) : KeyEvent :=
  { key := "`", ctrlKey := false, metaKey := false, altKey := false, shiftKey := shift }

/-- A manager whose record has a title but an empty panic key and panic URL. -/
def blankKeySt : St :=
  { mgr := { newManager with settings :=
      { customTitle := "Docs", customFavicon := "", panicKey := "", panicUrl := ""
        openInAboutBlank := none } }
    page := cloakPage
    log := [] }

/-- Number of `initAboutBlank` calls that a log handed to a timer or to the
load event. -/
def deferredCloakCalls (log : List Effect) : Nat :=
  (scheduled log).count Task.initAboutBlank

/-- A further `init` call on the same manager: what the browser answers and
what the two storage areas hold by then. -/
structure InitStep where
  env : Env
  localStorage : Storage
  sessionStorage : Storage
deriving DecidableEq, Repr

/-- Call `init` again on the same manager after storage has become `step`'s. -/
def initAgain (s : St) (step : InitStep) : St :=
  let page := { s.page with localStorage := step.localStorage, sessionStorage := step.sessionStorage }
  init step.env { s with page := page }

/-- The sample page with the session flag present but empty. -/
def emptyFlagPage : Page :=
  { cloakPage with sessionStorage := [("aboutBlankActivated", "")] }

/-- The markup of the settings modal (`none` without the modal or its form). -/
def modalContent (s : St) : Option ModalContent :=
  s.page.settingsModal.bind (fun modal => modal.content)

/-- Number of click listeners on `#settingsClose` (0 without the control). -/
def closeClickHandlers (s : St) : Nat :=
  match modalContent s with
  | some c => c.closeClick
  | none => 0

/-- Number of submit listeners on `#settingsForm` (0 without the form). -/
def formSubmitHandlers (s : St) : Nat :=
  match modalContent s with
  | some c => c.formSubmit
  | none => 0

/-! ## static/settings/index.js: settings button and form population -/

/-- The method `populateSettingsForm` (lines 260-269).  Without the inputs the
first `getElementById(...).value = ...` throws before anything is written. -/
def populateSettingsForm (s : St) : Completion × St :=
  match s.page.settingsModal with
  | none => (.threw, s)
  | some modal =>
    match modal.content with
    | none => (.threw, s)
    | some c =>
      let checked := decide (getItem s.page.localStorage "aboutBlank" = some "true")
      let c := { c with
        customTitle := s.mgr.settings.customTitle
        customFavicon := s.mgr.settings.customFavicon
        panicKey := s.mgr.settings.panicKey
        panicUrl := s.mgr.settings.panicUrl
        aboutBlankCheck := checked }
      let modal := { modal with content := some c }
      (.returned, { s with page := { s.page with settingsModal := some modal } })

/-- The window of the settings script: `window.settingsManager` (`none` while
undefined), the page and the log. -/
structure World where
  settingsManager : Option Manager
  page : Page
  log : List Effect
deriving DecidableEq, Repr

/-- The first part of `settingsBtnHandler` (lines 536-553): when
`#settingsModal` is missing, append a bare div with that id, then construct
the manager if there is none yet or else call its `createSettingsModal`. -/
def ensureSettingsModal (env : Env) (w : World) : World :=
  match w.page.settingsModal with
  | some _ => w
  | none =>
    let page := { w.page with settingsModal := some { display := "none", content := none } }
    match w.settingsManager with
    | none =>
      let s := init env { mgr := newManager, page := page, log := w.log }
      { settingsManager := some s.mgr, page := s.page, log := s.log }
    | some m =>
      let s := createSettingsModal { mgr := m, page := page, log := w.log }
      { settingsManager := some s.mgr, page := s.page, log := s.log }

/-- The capturing click listener `settingsBtnHandler` (lines 530-562);
`onButton` says whether `e.target.closest('#settingsBtn')` found the button. -/
def settingsBtnHandler (env : Env) (onButton : Bool) (w : World) : Completion × World :=
  if !onButton then (.returned, w)
  else
    let w := { w with log := w.log ++ [Effect.preventDefault, Effect.stopPropagation] }
    let w := ensureSettingsModal env w
    match w.page.settingsModal with
    | none => (.returned, w)
    | some modal =>
      let page := { w.page with settingsModal := some { modal with display := "block" } }
      match w.settingsManager with
      | none => (.returned, { w with page := page })
      | some m =>
        let r := populateSettingsForm { mgr := m, page := page, log := w.log }
        (r.1, { settingsManager := some r.2.mgr, page := r.2.page, log := r.2.log })

/-- The bottom of the script (lines 583-593): construct the manager unless
`window.settingsManager` is already set. -/
def settingsReady (env : Env) (w : World) : World :=
  match w.settingsManager with
  | some _ => w
  | none =>
    let s := init env { mgr := newManager, page := w.page, log := w.log }
    { settingsManager := some s.mgr, page := s.page, log := s.log }

/-- A page that is still loading: no manager yet, no `#settingsModal`. -/
def loadingWorld : World :=
  { settingsManager := none, page := cloakPage, log := [] }

/-! ## static/settings/index.js: the frame link interception handler -/

/-- The anchor that `e.target.closest('a')` finds: its resolved `href` (""
without one), its `target`, and `new URL(link.href, location.href).origin`
(`none` when the URL constructor throws). -/
structure Anchor where
  href : String
  target : String
  origin : Option String
deriving DecidableEq, Repr

/-- What the interception handler reads of a click event; `link` is `none`
when the click is not inside an anchor. -/
structure ClickEvent where
  link : Option Anchor
  ctrlKey : Bool
  metaKey : Bool
  shiftKey : Bool
  altKey : Bool
deriving DecidableEq, Repr

/-- An iframe element of the parent document: whether its `contentWindow` is
this window (`none` when the comparison throws) and its `src`. -/
structure FrameEl where
  isSelf : Option Bool
  src : String
deriving DecidableEq, Repr

/-- What `window.parent` gives the handler. -/
inductive ParentAccess
  | noParent
  | denied
  | frames (list : List FrameEl)
deriving DecidableEq, Repr

/-- The frame in which the handler runs: `window.location.href`, the origin
of that address, and the parent. -/
structure FrameEnv where
  locationHref : String
  origin : String
  parent : ParentAccess
deriving DecidableEq, Repr

/-- The call `s.startsWith(p)`. -/
def startsWith (s p : String) : Bool := startsWithChars p.data s.data

/-- The expression `s.split('?')[0]`. -/
def beforeQuery (s : String) : String :=
  String.mk (s.data.takeWhile (fun c => !(c == '?')))

/-- Index of the first frame for which `test` holds, counting from `i`. -/
def findFrame (test : FrameEl → Bool) : List FrameEl → Nat → Option Nat
  | [], _ => none
  | f :: rest, i => if test f then some i else findFrame test rest (i + 1)

/-- The navigation of lines 343-386: rewrite the `src` of the owning iframe
(found by identity, else by address), else assign `window.location.href`; when
the parent document cannot be read, `location.replace`. -/
def navigateFrame (fe : FrameEnv) (href : String) : List Effect :=
  match fe.parent with
  | .noParent => [Effect.setLocationHref href]
  | .denied => [Effect.locationReplace href]
  | .frames list =>
    match findFrame (fun f => f.isSelf == some true) list 0 with
    | some i => [Effect.setIframeSrc i href]
    | none =>
      let currentUrl := beforeQuery fe.locationHref
      match findFrame (fun f => !(f.src == "") && includes f.src currentUrl) list 0 with
      | some i => [Effect.setIframeSrc i href]
      | none => [Effect.setLocationHref href]

/-- The capturing click listener that `initIframeLinkInterception` registers
(lines 306-395). -/
def linkInterceptionHandler (fe : FrameEnv) (e : ClickEvent) : List Effect :=
  match e.link with
  | none => []
  | some link =>
    if link.href = "" then []
    else if link.href = "#" || startsWith link.href "javascript:" then []
    else
      match link.origin with
      | none => []
      | some linkOrigin =>
        if linkOrigin = fe.origin then
          let isNewTab := link.target = "_blank" || e.ctrlKey || e.metaKey || e.shiftKey
          if !isNewTab then
            [Effect.preventDefault, Effect.stopPropagation, Effect.stopImmediatePropagation]
              ++ navigateFrame fe link.href
          else []
        else []

/-- Whether the handler's own test calls the link same-origin. -/
def sameOrigin (fe : FrameEnv) (link : Anchor) : Bool :=
  link.origin == some fe.origin

/-- Whether the click asks for a new tab. -/
def isNewTabRequest (link : Anchor) (e : ClickEvent) : Bool :=
  link.target == "_blank" || e.ctrlKey || e.metaKey || e.shiftKey

/-- The cloaked frame inside the popup, its iframe found by identity. -/
def cloakedFrame : FrameEnv :=
  { locationHref := "https://canlite.example/play?_t=1700000000000"
    origin := "https://canlite.example"
    parent := ParentAccess.frames [{ isSelf := some true, src := "https://canlite.example/play?_t=1700000000000" }] }

/-- A cloaked frame showing a local file, whose origin is opaque ("null"). -/
def localFileFrame : FrameEnv :=
  { locationHref := "file:///home/user/canlite/index.html"
    origin := "null"
    parent := ParentAccess.denied }

/-- A plain left click on `link`. -/
def plainClick (link : Anchor) : ClickEvent :=
  { link := some link, ctrlKey := false, metaKey := false, shiftKey := false, altKey := false }

/-! ## static/login/index.js: popunder timing -/

/-- Value of a decimal digit, `none` for any other character. -/
def digitValue (c : Char) : Option Nat :=
  if '0' ≤ c ∧ c ≤ '9' then some (c.toNat - '0'.toNat) else none

/-- Read the leading decimal digits of a list of characters: the value
accumulated so far and whether a digit has been seen. -/
def readDigits : List Char → Nat → Bool → Option Nat
  | [], acc, seen => if seen then some acc else none
  | c :: rest, acc, seen =>
    match digitValue c with
    | some d => readDigits rest (acc * 10 + d) true
    | none => if seen then some acc else none

/-- The call `parseInt(v, 10)` on a string-or-null value, exact on the integers
(`none` for NaN): skip leading white space, take an optional sign, read the
leading digits.  `null` reads as the text "null", which has no digits. -/
def parseInt10 (v : Option String) : Option Int :=
  match v with
  | none => none
  | some s =>
    match s.data.dropWhile isJsWhiteSpace with
    | '-' :: rest => (readDigits rest 0 false).map (fun n => -(n : Int))
    | '+' :: rest => (readDigits rest 0 false).map (fun n => (n : Int))
    | chars => (readDigits chars 0 false).map (fun n => (n : Int))

/-- The constant `interval` (line 42): `5 * 60 * 1000`. -/
def interval : Int := 5 * 60 * 1000

/-- The function `shouldOpenPopunder` (lines 44-48); `now` is `Date.now()` and
`pathname` is `window.location.pathname`.  `parseInt(...) || 0` turns NaN
(and 0) into 0. -/
def shouldOpenPopunder (ls : Storage) (now : Int) (pathname : String) : Bool :=
  let lastTime := (parseInt10 (getItem ls "lastPopunderTime")).getD 0
  decide (now - lastTime ≥ interval) && !(pathname == "/")

/-- Thirty minutes in milliseconds, the interval that the comment on line 42
names. -/
def thirtyMinutes : Int := 30 * 60 * 1000

/-- Following the spec's words ("the current location already matches the
disguise destination"): the main window's address is the redirect target
`pLink` or lies under it. -/
def matchesDestination (currentUrl pLink : String) : Bool := startsWith currentUrl pLink

/-- A page with empty storage. -/
def plainPage : Page := { cloakPage with localStorage := [] }

/-- The settings form saved with panic key "q" and panic URL
"https://example.org". -/
def changeKeyForm : FormValues :=
  { customTitle := "", customFavicon := "", panicKey := "q", panicUrl := "https://example.org" }

/-- The settings form saved with the panic key left at "`" and the panic URL
changed to "https://example.org". -/
def changeUrlForm : FormValues :=
  { customTitle := "", customFavicon := "", panicKey := "`", panicUrl := "https://example.org" }

/-! ## Storage lemmas -/

theorem getItem_setItem (s : Storage) (k v k' : String) :
    getItem (setItem s k v) k' = if k' = k then some v else getItem s k' := by
  induction s with
  | nil =>
    by_cases hk : k' = k
    · subst hk; simp [setItem, getItem]
    · have : ¬ k = k' := fun h => hk h.symm
      simp [setItem, getItem, hk, this]
  | cons p rest ih =>
    obtain ⟨a, b⟩ := p
    by_cases hak : a = k
    · subst hak
      by_cases hk : k' = a
      · subst hk; simp [setItem, getItem]
      · have : ¬ a = k' := fun h => hk h.symm
        simp [setItem, getItem, hk, this]
    · by_cases hak' : a = k'
      · have : ¬ k' = k := fun h => hak (hak'.trans h)
        simp [setItem, getItem, hak, hak', this]
      · simp [setItem, getItem, hak, hak', ih]

theorem getItem_filter_ne (s : Storage) (k k' : String) :
    getItem (s.filter (fun p => !(p.1 == k))) k' = if k' = k then none else getItem s k' := by
  induction s with
  | nil => simp [getItem]
  | cons p rest ih =>
    obtain ⟨a, b⟩ := p
    by_cases hak : a = k
    · subst hak
      by_cases hk : k' = a
      · subst hk; simpa [getItem] using ih
      · have : ¬ a = k' := fun h => hk h.symm
        simpa [getItem, hk, this] using ih
    · by_cases hak' : a = k'
      · have : ¬ k' = k := fun h => hak (hak'.trans h)
        simp [getItem, hak, hak', this]
      · simp [getItem, hak, hak', ih]

theorem getItem_removeItem (s : Storage) (k k' : String) :
    getItem (removeItem s k) k' = if k' = k then none else getItem s k' :=
  getItem_filter_ne s k k'

theorem getItem_clear (s : Storage) (k : String) : getItem (clear s) k = none := rfl

theorem mem_ownKeys (o : JsObject) (k : String) :
    k ∈ ownKeys o ↔ (getProp o k).isSome = true := by
  induction o with
  | nil => simp [ownKeys, getProp, getItem]
  | cons p rest ih =>
    obtain ⟨a, b⟩ := p
    unfold getProp at ih ⊢
    by_cases hak : a = k
    · subst hak; simp [ownKeys, getItem]
    · have : ¬ k = a := fun h => hak h.symm
      simp [ownKeys, getItem, hak, this, ih]

theorem getItem_foldl_setItem (g : String → String) (ks : List String) (ls : Storage)
    (k : String) :
    getItem (ks.foldl (fun s key => setItem s key (g key)) ls) k =
      if k ∈ ks then some (g k) else getItem ls k := by
  induction ks generalizing ls with
  | nil => simp
  | cons a rest ih =>
    rw [List.foldl_cons, ih, getItem_setItem]
    by_cases hr : k ∈ rest
    · simp [hr]
    · by_cases hka : k = a
      · subst hka; simp [hr]
      · simp [hr, hka]

theorem getItem_forInSetItem (storageData : JsObject) (ls : Storage) (k : String) :
    getItem (forInSetItem storageData ls) k =
      match getProp storageData k with
      | some v => some v
      | none => getItem ls k := by
  unfold forInSetItem
  rw [getItem_foldl_setItem (fun key => toStorageString (getProp storageData key))]
  cases h : getProp storageData k with
  | some v => simp [mem_ownKeys, h, toStorageString]
  | none => simp [mem_ownKeys, h]

/-! ## Claims on static/login/index.js -/

theorem getItem_filter_names (names : List String) (o : Storage) (k : String) :
    getItem (o.filter (fun p => !(names.contains p.1))) k =
      if k ∈ names then none else getItem o k := by
  induction o with
  | nil => simp [getItem]
  | cons p rest ih =>
    obtain ⟨a, b⟩ := p
    by_cases hak : a = k
    · subst hak
      by_cases hn : a ∈ names
      · simpa [getItem, hn] using ih
      · simp [getItem, hn]
    · by_cases hn : a ∈ names
      · simpa [getItem, hn, hak] using ih
      · simpa [getItem, hn, hak] using ih

/-- Whenever the register handler sends a request (any /api/register answer
other than "exists"), its localStorageData has no `token` property; a stored
key that a prototype member shadows is missing from it, and every other key
holds what persistent storage held. -/
theorem registerSubmit_payload (ls : Storage) (token : String) (hsent : token ≠ "exists") :
    ∃ req, registerSubmit ls (some token) = some req ∧ req.token = token ∧
      getProp req.localStorageData "token" = none ∧
      ∀ k, k ≠ "token" → getProp req.localStorageData k =
        if k ∈ storagePrototypeNames then none else getItem ls k := by
  refine ⟨⟨token, deleteProp (spreadStorage ls) "token"⟩, ?_, rfl, ?_, ?_⟩
  · simp [registerSubmit, hsent]
  · simp [getProp, deleteProp, getItem_filter_ne]
  · intro k hk
    simp only [getProp, deleteProp, spreadStorage, getItem_filter_ne, hk, if_false]
    exact getItem_filter_names storagePrototypeNames ls k

/-- C1, the failing input: with the keys `score`, `key`, `length` and `token`
in persistent storage and the answer "t9" from /api/register, the
localStorageData sent to /api/saveGameData is `{score: "12"}`: `token` is
left out as claimed, but `key` and `length`, which storage holds, are missing
too, because `{ ...localStorage }` copies own properties only and these two
names are shadowed by members of `Storage.prototype`. -/
theorem register_payload_drops_shadowed_keys :
    getItem [("score", "12"), ("key", "abc"), ("length", "7"), ("token", "t1")] "key"
      = some "abc" ∧
    getItem [("score", "12"), ("key", "abc"), ("length", "7"), ("token", "t1")] "length"
      = some "7" ∧
    registerSubmit [("score", "12"), ("key", "abc"), ("length", "7"), ("token", "t1")]
        (some "t9")
      = some { token := "t9", localStorageData := [("score", "12")] } := by
  decide

/-- C2, refuted as stated: a bundle that itself carries a `token` key does
not keep the bundle's value for it, and a `token` key of the prior storage
that the bundle lacks is not gone; in both cases storage ends with the
login token. -/
theorem login_bundle_token_counterexample :
    (getProp [("token", "t1"), ("score", "5")] "token" = some "t1" ∧
      getItem (loginSubmit [] "t2" (some [("token", "t1"), ("score", "5")])) "token"
        = some "t2") ∧
    (getItem [("token", "t0")] "token" = some "t0" ∧
      getProp [("score", "5")] "token" = none ∧
      getItem (loginSubmit [("token", "t0")] "t2" (some [("score", "5")])) "token"
        = some "t2") := by
  decide

/-- C2, amended: once the login handler has applied bundle B over prior
storage S, every key other than `token` reads B's value when B has the key
and is absent when B lacks it (whatever S held), and `token` reads the login
token. -/
theorem login_bundle_replaces_storage (S : Storage) (B : JsObject) (result : String)
    (hacc : result ≠ "acc") (hpass : result ≠ "pass") (k : String) :
    getItem (loginSubmit S result (some B)) k =
      if k = "token" then some result else getProp B k := by
  simp only [loginSubmit, hacc, hpass, if_false, getItem_setItem, getItem_forInSetItem,
    getItem_clear]
  by_cases hk : k = "token"
  · simp [hk]
  · cases h : getProp B k <;> simp [hk]

/-- Witness for C2: a two-key bundle applied over a store with a stale key. -/
theorem login_bundle_replaces_storage_witness :
    "t2" ≠ "acc" ∧ "t2" ≠ "pass" ∧
    getItem (loginSubmit [("old", "x"), ("score", "1")] "t2"
        (some [("score", "5"), ("level", "2")])) "old" =
      if "old" = "token" then some "t2" else getProp [("score", "5"), ("level", "2")] "old" :=
  ⟨by decide, by decide,
    login_bundle_replaces_storage _ _ "t2" (by decide) (by decide) "old"⟩

/-! ## Substring lemmas -/

theorem startsWithChars_iff (p s : List Char) :
    startsWithChars p s = true ↔ ∃ t, s = p ++ t := by
  induction p generalizing s with
  | nil => simp [startsWithChars]
  | cons a p ih =>
    cases s with
    | nil => simp [startsWithChars]
    | cons b s =>
      simp only [startsWithChars, Bool.and_eq_true, beq_iff_eq, ih, List.cons_append,
        List.cons.injEq]
      constructor
      · rintro ⟨rfl, t, rfl⟩; exact ⟨t, rfl, rfl⟩
      · rintro ⟨t, rfl, rfl⟩; exact ⟨rfl, t, rfl⟩

theorem includesChars_iff (s sub : List Char) :
    includesChars s sub = true ↔ ∃ a b, s = a ++ sub ++ b := by
  induction s with
  | nil =>
    simp only [includesChars, startsWithChars_iff]
    constructor
    · rintro ⟨t, ht⟩
      exact ⟨[], t, by simpa using ht⟩
    · rintro ⟨a, b, h⟩
      have hs : sub = [] := by
        have h' := h.symm
        simp only [List.append_eq_nil] at h'
        exact h'.1.2
      exact ⟨[], by simp [hs]⟩
  | cons c rest ih =>
    simp only [includesChars, Bool.or_eq_true, startsWithChars_iff, ih]
    constructor
    · rintro (⟨t, ht⟩ | ⟨a, b, h⟩)
      · exact ⟨[], t, by simpa using ht⟩
      · exact ⟨c :: a, b, by simp [h]⟩
    · rintro ⟨a, b, h⟩
      cases a with
      | nil => exact Or.inl ⟨b, by simpa using h⟩
      | cons x a =>
        simp only [List.cons_append, List.cons.injEq] at h
        exact Or.inr ⟨a, b, h.2⟩

theorem includes_of_includes_append (s : String) (p q : List Char)
    (h : includesChars s.data (p ++ q) = true) : includesChars s.data q = true := by
  rw [includesChars_iff] at h ⊢
  obtain ⟨a, b, hab⟩ := h
  exact ⟨a ++ p, b, by simp [hab]⟩

theorem includes_drive_imp_google (url : String)
    (h : includes url "drive.google.com" = true) : includes url "google.com" = true := by
  unfold includes at h ⊢
  exact includes_of_includes_append url "drive.".data "google.com".data h

/-! ## Cloak activation lemmas -/

theorem redirectStep_log (currentUrl pLink : String) (s : St) :
    (redirectStep currentUrl pLink s).log =
      if includes currentUrl "google.com" = true then s.log
      else s.log ++ [Effect.locationReplace pLink] := by
  unfold redirectStep
  cases hg : includes currentUrl "google.com" with
  | true => simp
  | false =>
    cases hd : includes currentUrl "drive.google.com" with
    | true => rw [includes_drive_imp_google currentUrl hd] at hg; cases hg
    | false => simp

theorem navigationCount_append (a b : List Effect) :
    navigationCount (a ++ b) = navigationCount a + navigationCount b := by
  simp [navigationCount]

theorem truthy_none : truthy none = false := rfl

theorem initAboutBlank_flag (env : Env) (s : St)
    (htoggle : getItem s.page.localStorage "aboutBlank" = some "true")
    (hflag : getItem s.page.sessionStorage "aboutBlankActivated" = none) :
    getItem (initAboutBlank env s).2.page.sessionStorage "aboutBlankActivated" =
      if s.mgr.aboutBlankRunning = false ∧ env.frameProbe = FrameProbe.top ∧
          includes env.userAgent "Firefox" = false ∧ env.popup = PopupResult.opened
      then some "true" else none := by
  unfold initAboutBlank
  cases hl : s.mgr.aboutBlankRunning with
  | true => simp [hflag]
  | false =>
    simp only [htoggle, hflag, truthy_none, Bool.false_eq_true, if_false, if_true, true_and]
    cases hp : env.frameProbe with
    | throws => simp [hflag]
    | framed => simp [hflag, initIframeLinkInterception]
    | top =>
      cases hu : includes env.userAgent "Firefox" with
      | true => simp [hflag]
      | false =>
        cases ho : env.popup <;> simp [getItem_setItem, getItem_removeItem]

theorem applySettings_frame (s : St) :
    (applySettings s).mgr = s.mgr ∧ (applySettings s).log = s.log ∧
    (applySettings s).page.localStorage = s.page.localStorage ∧
    (applySettings s).page.sessionStorage = s.page.sessionStorage ∧
    (applySettings s).page.keydownListeners = s.page.keydownListeners ∧
    (applySettings s).page.nextHandler = s.page.nextHandler ∧
    (applySettings s).page.settingsModal = s.page.settingsModal := by
  unfold applySettings
  by_cases h1 : s.mgr.settings.customTitle = "" <;>
    by_cases h2 : s.mgr.settings.customFavicon = "" <;> simp [h1, h2]

theorem bindSettingsEvents_frame (s : St) :
    (bindSettingsEvents s).log = s.log ∧
    (bindSettingsEvents s).page.localStorage = s.page.localStorage ∧
    (bindSettingsEvents s).page.sessionStorage = s.page.sessionStorage ∧
    (bindSettingsEvents s).page.keydownListeners = s.page.keydownListeners ∧
    (bindSettingsEvents s).mgr.settings = s.mgr.settings ∧
    (bindSettingsEvents s).mgr.panicHandler = s.mgr.panicHandler ∧
    (bindSettingsEvents s).mgr.aboutBlankRunning = s.mgr.aboutBlankRunning ∧
    (bindSettingsEvents s).mgr.aboutBlankInitStarted = s.mgr.aboutBlankInitStarted := by
  unfold bindSettingsEvents
  cases h : s.page.settingsModal <;> simp

theorem createSettingsModal_frame (s : St) :
    (createSettingsModal s).log = s.log ∧ (createSettingsModal s).mgr = s.mgr ∧
    (createSettingsModal s).page.localStorage = s.page.localStorage ∧
    (createSettingsModal s).page.sessionStorage = s.page.sessionStorage ∧
    (createSettingsModal s).page.keydownListeners = s.page.keydownListeners := by
  unfold createSettingsModal
  cases h : s.page.settingsModal <;> simp

theorem initSettingsModal_frame (s : St) :
    (initSettingsModal s).log = s.log ++ [Effect.setTimeout Task.bindSettingsEvents 50] ∧
    (initSettingsModal s).page.localStorage = s.page.localStorage ∧
    (initSettingsModal s).page.sessionStorage = s.page.sessionStorage ∧
    (initSettingsModal s).page.keydownListeners = s.page.keydownListeners ∧
    (initSettingsModal s).mgr.settings = s.mgr.settings ∧
    (initSettingsModal s).mgr.panicHandler = s.mgr.panicHandler ∧
    (initSettingsModal s).mgr.aboutBlankRunning = s.mgr.aboutBlankRunning ∧
    (initSettingsModal s).mgr.aboutBlankInitStarted = s.mgr.aboutBlankInitStarted := by
  have hb := bindSettingsEvents_frame (createSettingsModal s)
  have hc := createSettingsModal_frame s
  simp only [initSettingsModal]
  obtain ⟨b1, b2, b3, b4, b5, b6, b7, b8⟩ := hb
  obtain ⟨c1, c2, c3, c4, c5⟩ := hc
  refine ⟨?_, ?_, ?_, ?_, ?_, ?_, ?_, ?_⟩
  · rw [b1, c1]
  · rw [b2, c3]
  · rw [b3, c4]
  · rw [b4, c5]
  · rw [b5, c2]
  · rw [b6, c2]
  · rw [b7, c2]
  · rw [b8, c2]

/-- The state that `init` reaches just before its cloak check (lines 9-15). -/
theorem init_prefix_frame (s : St) :
    let t := initSettingsModal (initPanicSystem (applySettings (loadSettings s)))
    t.log = s.log ++ [Effect.setTimeout Task.bindSettingsEvents 50] ∧
    t.page.localStorage = s.page.localStorage ∧
    t.page.sessionStorage = s.page.sessionStorage ∧
    t.mgr.aboutBlankRunning = s.mgr.aboutBlankRunning ∧
    t.mgr.aboutBlankInitStarted = s.mgr.aboutBlankInitStarted := by
  intro t
  obtain ⟨m1, m2, m3, m4, m5, m6, m7, m8⟩ :=
    initSettingsModal_frame (initPanicSystem (applySettings (loadSettings s)))
  obtain ⟨a1, a2, a3, a4, a5, a6, a7⟩ := applySettings_frame (loadSettings s)
  refine ⟨?_, ?_, ?_, ?_, ?_⟩
  · rw [m1]; simp only [initPanicSystem]; rw [a2]; rfl
  · rw [m2]; simp only [initPanicSystem]; rw [a3]; rfl
  · rw [m3]; simp only [initPanicSystem]; rw [a4]; rfl
  · rw [m7]; simp only [initPanicSystem]; rw [a1]; rfl
  · rw [m8]; simp only [initPanicSystem]; rw [a1]; rfl

theorem initFrameCheck_frame (env : Env) (s : St) :
    (initFrameCheck env s).log = s.log ∧ (initFrameCheck env s).mgr = s.mgr ∧
    (initFrameCheck env s).page.localStorage = s.page.localStorage ∧
    (initFrameCheck env s).page.sessionStorage = s.page.sessionStorage ∧
    (initFrameCheck env s).page.keydownListeners = s.page.keydownListeners := by
  unfold initFrameCheck initIframeLinkInterception
  split <;> simp

theorem initCloakCheck_frame (env : Env) (s : St) :
    (initCloakCheck env s).page = s.page ∧
    (initCloakCheck env s).mgr.settings = s.mgr.settings ∧
    (initCloakCheck env s).mgr.panicHandler = s.mgr.panicHandler ∧
    (initCloakCheck env s).mgr.aboutBlankRunning = s.mgr.aboutBlankRunning := by
  unfold initCloakCheck
  simp only
  split
  · split
    · split <;> simp
    · simp
  · simp

theorem initCloakCheck_log (env : Env) (s : St)
    (htoggle : getItem s.page.localStorage "aboutBlank" = some "true")
    (hflag : truthy (getItem s.page.sessionStorage "aboutBlankActivated") = false)
    (hstarted : s.mgr.aboutBlankInitStarted = false) :
    (initCloakCheck env s).log = s.log ++
      [if env.readyComplete = true then Effect.setTimeout Task.initAboutBlank 50
       else Effect.onLoadOnce Task.initAboutBlank 50] := by
  unfold initCloakCheck
  simp only [htoggle, hflag, hstarted]
  cases env.readyComplete <;> simp

/-- What `new SettingsManager()` leaves behind when the cloak is eligible. -/
theorem construct_eligible (env : Env) (p : Page)
    (htoggle : getItem p.localStorage "aboutBlank" = some "true")
    (hflag : truthy (getItem p.sessionStorage "aboutBlankActivated") = false) :
    (construct env p).log =
      [Effect.setTimeout Task.bindSettingsEvents 50,
       if env.readyComplete = true then Effect.setTimeout Task.initAboutBlank 50
       else Effect.onLoadOnce Task.initAboutBlank 50] ∧
    (construct env p).page.localStorage = p.localStorage ∧
    (construct env p).page.sessionStorage = p.sessionStorage ∧
    (construct env p).mgr.aboutBlankRunning = false := by
  obtain ⟨t1, t2, t3, t4, t5⟩ := init_prefix_frame ⟨newManager, p, []⟩
  simp only at t1 t2 t3 t4 t5
  obtain ⟨f1, f2, f3, f4, f5⟩ := initFrameCheck_frame env (initCloakCheck env
    (initSettingsModal (initPanicSystem (applySettings (loadSettings ⟨newManager, p, []⟩)))))
  obtain ⟨c1, c2, c3, c4⟩ := initCloakCheck_frame env
    (initSettingsModal (initPanicSystem (applySettings (loadSettings ⟨newManager, p, []⟩))))
  have hl := initCloakCheck_log env
    (initSettingsModal (initPanicSystem (applySettings (loadSettings ⟨newManager, p, []⟩))))
    (by rw [t2]; exact htoggle) (by rw [t3]; exact hflag) (by rw [t5]; rfl)
  simp only [construct, init]
  refine ⟨?_, ?_, ?_, ?_⟩
  · rw [f1, hl, t1]; rfl
  · rw [f3, c1, t2]
  · rw [f4, c1, t3]
  · rw [f2, c4, t4]; rfl

theorem initAboutBlank_attempt (env : Env) (s : St)
    (hlatch : s.mgr.aboutBlankRunning = false)
    (htoggle : getItem s.page.localStorage "aboutBlank" = some "true")
    (hflag : truthy (getItem s.page.sessionStorage "aboutBlankActivated") = false)
    (htop : env.frameProbe = FrameProbe.top)
    (hua : includes env.userAgent "Firefox" = false) :
    (initAboutBlank env s).1 = Completion.returned ∧
    (initAboutBlank env s).2.log =
      s.log ++ Effect.windowOpen "about:blank" "_blank" :: attemptTail env s.page.localStorage ∧
    (initAboutBlank env s).2.page.localStorage = s.page.localStorage ∧
    (initAboutBlank env s).2.mgr.aboutBlankRunning =
      (if env.popup = PopupResult.opened then true else false) ∧
    getItem (initAboutBlank env s).2.page.sessionStorage "aboutBlankActivated" =
      (if env.popup = PopupResult.opened then some "true" else none) := by
  unfold initAboutBlank attemptTail
  simp only [hlatch, htoggle, hflag, htop, hua, Bool.false_eq_true, if_false, if_true,
    Bool.not_false]
  cases env.popup <;> simp [getItem_setItem, getItem_removeItem]


theorem pageLoad_log (env : Env) (url : String) (p : Page)
    (htoggle : getItem p.localStorage "aboutBlank" = some "true")
    (hflag : truthy (getItem p.sessionStorage "aboutBlankActivated") = false)
    (htop : env.frameProbe = FrameProbe.top)
    (hua : includes env.userAgent "Firefox" = false) :
    (pageLoad env url p).log =
      [Effect.setTimeout Task.bindSettingsEvents 50,
       if env.readyComplete = true then Effect.setTimeout Task.initAboutBlank 50
       else Effect.onLoadOnce Task.initAboutBlank 50,
       Effect.windowOpen "about:blank" "_blank"] ++
      (match env.popup with
       | .opened =>
         [Effect.cloakPopup env.href env.now,
          Effect.setTimeout
            (Task.redirect (orDefault (getItem p.localStorage "pLink") "https://www.google.com"))
            100] ++
         (if includes url "google.com" = true then []
          else [Effect.locationReplace
            (orDefault (getItem p.localStorage "pLink") "https://www.google.com")])
       | _ => [Effect.alert "Please allow popups and redirects for about:blank cloak to work."]) := by
  obtain ⟨c1, c2, c3, c4⟩ := construct_eligible env p htoggle hflag
  obtain ⟨b1, b2, b3, b4, b5, b6, b7, b8⟩ := bindSettingsEvents_frame (construct env p)
  obtain ⟨a1, a2, a3, a4, a5⟩ := initAboutBlank_attempt env (bindSettingsEvents (construct env p))
    (by rw [b7, c4]) (by rw [b2, c2]; exact htoggle) (by rw [b3, c3]; exact hflag) htop hua
  rw [b1, b2, c2] at a2
  have hs0 : scheduled (construct env p).log = [Task.bindSettingsEvents, Task.initAboutBlank] := by
    rw [c1]; cases env.readyComplete <;> rfl
  have hs1 : runTasks env url (scheduled (construct env p).log) (construct env p) =
      (initAboutBlank env (bindSettingsEvents (construct env p))).2 := by
    rw [hs0]; rfl
  unfold pageLoad
  simp only [hs1]
  rw [a2, List.drop_left]
  cases hp : env.popup with
  | opened =>
    simp only [attemptTail, hp, scheduled, runTasks, List.foldl_cons, List.foldl_nil, runTask]
    rw [redirectStep_log, a2, c1]
    simp only [attemptTail, hp]
    cases includes url "google.com" <;> simp
  | null =>
    simp only [attemptTail, hp, scheduled, runTasks, List.foldl_nil]
    rw [a2, c1]; simp [attemptTail, hp]
  | closed =>
    simp only [attemptTail, hp, scheduled, runTasks, List.foldl_nil]
    rw [a2, c1]; simp [attemptTail, hp]

theorem navigations_append (a b : List Effect) :
    navigations (a ++ b) = navigations a ++ navigations b := by
  simp [navigations]

theorem popupCount_append (a b : List Effect) :
    popupCount (a ++ b) = popupCount a + popupCount b := by
  simp [popupCount]

/-! ## Claims on the cloak activation (settings/index.js) -/

/-- C3, refuted as stated: with the toggle "true" and the session flag unset,
the flag is absent after `initAboutBlank` when `open` returned null, when it
returned a closed window, on Firefox, and inside a frame. -/
theorem cloak_flag_not_always_set_counterexample :
    getItem cloakPage.localStorage "aboutBlank" = some "true" ∧
    getItem cloakPage.sessionStorage "aboutBlankActivated" = none ∧
    getItem (initAboutBlank { chromeEnv with popup := PopupResult.null }
      (freshSt cloakPage)).2.page.sessionStorage "aboutBlankActivated" = none ∧
    getItem (initAboutBlank { chromeEnv with popup := PopupResult.closed }
      (freshSt cloakPage)).2.page.sessionStorage "aboutBlankActivated" = none ∧
    getItem (initAboutBlank { chromeEnv with userAgent := "Mozilla/5.0 Gecko/20100101 Firefox/121.0" }
      (freshSt cloakPage)).2.page.sessionStorage "aboutBlankActivated" = none ∧
    getItem (initAboutBlank { chromeEnv with frameProbe := FrameProbe.framed }
      (freshSt cloakPage)).2.page.sessionStorage "aboutBlankActivated" = none := by
  decide

/-- C3, amended: for a call of `initAboutBlank` that starts with the toggle
"true" and the session flag unset, the flag reads "true" afterwards exactly
when the latch was clear, the context is top-level, the user agent is not
Firefox and the popup opened; in every other case (popup blocked included)
the flag is absent afterwards. -/
theorem cloak_flag_set_iff_popup_opened (env : Env) (s : St)
    (htoggle : getItem s.page.localStorage "aboutBlank" = some "true")
    (hflag : getItem s.page.sessionStorage "aboutBlankActivated" = none) :
    getItem (initAboutBlank env s).2.page.sessionStorage "aboutBlankActivated" =
      if s.mgr.aboutBlankRunning = false ∧ env.frameProbe = FrameProbe.top ∧
          includes env.userAgent "Firefox" = false ∧ env.popup = PopupResult.opened
      then some "true" else none :=
  initAboutBlank_flag env s htoggle hflag

/-- Witness for C3: the sample page in a top-level Chrome window. -/
theorem cloak_flag_set_iff_popup_opened_witness :
    getItem (freshSt cloakPage).page.localStorage "aboutBlank" = some "true" ∧
    getItem (freshSt cloakPage).page.sessionStorage "aboutBlankActivated" = none ∧
    getItem (initAboutBlank chromeEnv (freshSt cloakPage)).2.page.sessionStorage
      "aboutBlankActivated" =
      if (freshSt cloakPage).mgr.aboutBlankRunning = false ∧
          chromeEnv.frameProbe = FrameProbe.top ∧
          includes chromeEnv.userAgent "Firefox" = false ∧
          chromeEnv.popup = PopupResult.opened
      then some "true" else none :=
  ⟨by decide, by decide,
    cloak_flag_set_iff_popup_opened chromeEnv (freshSt cloakPage) (by decide) (by decide)⟩

/-- C4: when `initAboutBlank` attempts the popup (latch clear, toggle "true",
session flag falsy, top-level, not Firefox) and `open` returns null or a
closed window, the call returns after one `open` and one alert with the
session flag absent, the latch false and persistent storage untouched; a
later page load over the same storage defers `initAboutBlank` again and, in a
top-level non-Firefox window, attempts the popup again, as does a second call
on the same manager. -/
theorem popup_blocked_rolls_back (env : Env) (s : St)
    (hlatch : s.mgr.aboutBlankRunning = false)
    (htoggle : getItem s.page.localStorage "aboutBlank" = some "true")
    (hflag : truthy (getItem s.page.sessionStorage "aboutBlankActivated") = false)
    (htop : env.frameProbe = FrameProbe.top)
    (hua : includes env.userAgent "Firefox" = false)
    (hblocked : env.popup = PopupResult.null ∨ env.popup = PopupResult.closed) :
    (initAboutBlank env s).1 = Completion.returned ∧
    (initAboutBlank env s).2.log = s.log ++
      [Effect.windowOpen "about:blank" "_blank",
       Effect.alert "Please allow popups and redirects for about:blank cloak to work."] ∧
    getItem (initAboutBlank env s).2.page.sessionStorage "aboutBlankActivated" = none ∧
    (initAboutBlank env s).2.mgr.aboutBlankRunning = false ∧
    (initAboutBlank env s).2.page.localStorage = s.page.localStorage ∧
    (∀ (env' : Env) (url : String) (p' : Page),
      p'.localStorage = (initAboutBlank env s).2.page.localStorage →
      p'.sessionStorage = (initAboutBlank env s).2.page.sessionStorage →
      Task.initAboutBlank ∈ scheduled (construct env' p').log ∧
      (env'.frameProbe = FrameProbe.top → includes env'.userAgent "Firefox" = false →
        popupCount (pageLoad env' url p').log = 1)) ∧
    popupCount (initAboutBlank env (initAboutBlank env s).2).2.log =
      popupCount (initAboutBlank env s).2.log + 1 := by
  obtain ⟨a1, a2, a3, a4, a5⟩ := initAboutBlank_attempt env s hlatch htoggle hflag htop hua
  have hne : ¬ env.popup = PopupResult.opened := by
    rcases hblocked with h | h <;> simp [h]
  have htail : attemptTail env s.page.localStorage =
      [Effect.alert "Please allow popups and redirects for about:blank cloak to work."] := by
    unfold attemptTail
    rcases hblocked with h | h <;> simp [h]
  simp only [hne, if_false] at a4 a5
  have hflag' : truthy (getItem (initAboutBlank env s).2.page.sessionStorage
      "aboutBlankActivated") = false := by rw [a5]; rfl
  refine ⟨a1, ?_, a5, a4, a3, ?_, ?_⟩
  · rw [a2, htail]
  · intro env' url p' hls hss
    have ht' : getItem p'.localStorage "aboutBlank" = some "true" := by rw [hls, a3]; exact htoggle
    have hf' : truthy (getItem p'.sessionStorage "aboutBlankActivated") = false := by
      rw [hss]; exact hflag'
    constructor
    · rw [(construct_eligible env' p' ht' hf').1]
      cases env'.readyComplete <;> simp [scheduled]
    · intro htop' hua'
      rw [pageLoad_log env' url p' ht' hf' htop' hua']
      cases env'.popup <;> cases env'.readyComplete <;>
        cases includes url "google.com" <;> simp [popupCount]
  · obtain ⟨r1, r2, r3, r4, r5⟩ := initAboutBlank_attempt env (initAboutBlank env s).2 a4
      (by rw [a3]; exact htoggle) hflag' htop hua
    rw [r2, popupCount_append]
    unfold attemptTail
    rcases hblocked with h | h <;> simp [h, popupCount]

/-- Witness for C4: the sample page in a Chrome window that blocks popups. -/
theorem popup_blocked_rolls_back_witness :
    (initAboutBlank { chromeEnv with popup := PopupResult.null } (freshSt cloakPage)).2.log =
      (freshSt cloakPage).log ++
      [Effect.windowOpen "about:blank" "_blank",
       Effect.alert "Please allow popups and redirects for about:blank cloak to work."] ∧
    popupCount (pageLoad chromeEnv "https://canlite.example/play" cloakPage).log = 1 := by
  have h := popup_blocked_rolls_back { chromeEnv with popup := PopupResult.null }
    (freshSt cloakPage) (by decide) (by decide) (by decide) (by decide) (by decide)
    (Or.inl (by decide))
  exact ⟨h.2.1, (h.2.2.2.2.2.1 chromeEnv "https://canlite.example/play" cloakPage
    (by decide) (by decide)).2 (by decide) (by decide)⟩

/-- C5, refuted as stated: a fresh load whose own address contains
"google.com" opens the popup but replaces nothing, and a stored empty `pLink`
is replaced by the default address, not by the stored value. -/
theorem fresh_load_redirect_counterexample :
    (popupCount (pageLoad chromeEnv "https://sites.google.com/view/canlite" cloakPage).log = 1 ∧
      navigations (pageLoad chromeEnv "https://sites.google.com/view/canlite" cloakPage).log
        = []) ∧
    (getItem (("pLink", "") :: cloakPage.localStorage) "pLink" = some "" ∧
      navigations (pageLoad chromeEnv "https://canlite.example/play"
          { cloakPage with localStorage := ("pLink", "") :: cloakPage.localStorage }).log
        = [Effect.locationReplace "https://www.google.com"]) := by
  decide

/-- C5, amended: on a fresh page load with the toggle "true", no session
flag, a top-level context, a non-Firefox user agent and a popup that opens,
exactly one popup is opened; the main window is replaced exactly once, with
the stored `pLink` when that is non-empty and with "https://www.google.com"
when `pLink` is absent or empty, unless the main window's address already
contains "google.com", in which case nothing is replaced. -/
theorem fresh_load_opens_one_popup (env : Env) (url : String) (p : Page)
    (htoggle : getItem p.localStorage "aboutBlank" = some "true")
    (hflag : getItem p.sessionStorage "aboutBlankActivated" = none)
    (htop : env.frameProbe = FrameProbe.top)
    (hua : includes env.userAgent "Firefox" = false)
    (hopened : env.popup = PopupResult.opened) :
    popupCount (pageLoad env url p).log = 1 ∧
    navigations (pageLoad env url p).log =
      (if includes url "google.com" = true then []
       else [Effect.locationReplace
         (match getItem p.localStorage "pLink" with
          | some v => if v = "" then "https://www.google.com" else v
          | none => "https://www.google.com")]) := by
  have hf : truthy (getItem p.sessionStorage "aboutBlankActivated") = false := by
    rw [hflag]; rfl
  rw [pageLoad_log env url p htoggle hf htop hua, hopened]
  have hor : orDefault (getItem p.localStorage "pLink") "https://www.google.com" =
      (match getItem p.localStorage "pLink" with
       | some v => if v = "" then "https://www.google.com" else v
       | none => "https://www.google.com") := by
    unfold orDefault; rfl
  rw [← hor]
  cases env.readyComplete <;> cases includes url "google.com" <;>
    simp [popupCount, navigations]

/-- Witness for C5: the sample page loaded at its own address. -/
theorem fresh_load_opens_one_popup_witness :
    getItem cloakPage.localStorage "aboutBlank" = some "true" ∧
    getItem cloakPage.sessionStorage "aboutBlankActivated" = none ∧
    chromeEnv.frameProbe = FrameProbe.top ∧
    includes chromeEnv.userAgent "Firefox" = false ∧
    chromeEnv.popup = PopupResult.opened ∧
    popupCount (pageLoad chromeEnv "https://canlite.example/play" cloakPage).log = 1 ∧
    navigations (pageLoad chromeEnv "https://canlite.example/play" cloakPage).log =
      (if includes "https://canlite.example/play" "google.com" = true then []
       else [Effect.locationReplace
         (match getItem cloakPage.localStorage "pLink" with
          | some v => if v = "" then "https://www.google.com" else v
          | none => "https://www.google.com")]) :=
  ⟨by decide, by decide, by decide, by decide, by decide,
    fresh_load_opens_one_popup chromeEnv "https://canlite.example/play" cloakPage
      (by decide) (by decide) (by decide) (by decide) (by decide)⟩

theorem includes_of_startsWith (s p sub : String)
    (hp : startsWith s p = true) (hsub : includes p sub = true) :
    includes s sub = true := by
  unfold startsWith at hp
  unfold includes at hsub ⊢
  rw [startsWithChars_iff] at hp
  rw [includesChars_iff] at hsub ⊢
  obtain ⟨t, ht⟩ := hp
  obtain ⟨a, b, hab⟩ := hsub
  exact ⟨a, b ++ t, by rw [ht, hab]; simp⟩

/-- C6, refuted as stated: at an address that merely mentions "google.com" in
its query the main window is not at the destination, yet nothing is replaced;
and at a custom destination without "google.com" the main window already is
at `pLink`, yet it is replaced again. -/
theorem redirect_guard_counterexample :
    (matchesDestination "https://canlite.example/play?ref=google.com" "https://www.google.com"
        = false ∧
      redirectStep "https://canlite.example/play?ref=google.com" "https://www.google.com"
        (freshSt cloakPage) = freshSt cloakPage) ∧
    (matchesDestination "https://example.org/" "https://example.org/" = true ∧
      (redirectStep "https://example.org/" "https://example.org/" (freshSt cloakPage)).log
        = [Effect.locationReplace "https://example.org/"]) := by
  decide

/-- C6, amended: in the deferred redirect step no `location.replace` is
performed when the current location contains "google.com" anywhere in its
address (the test on "drive.google.com" adds nothing), which covers a main
window that already is at a destination whose address contains "google.com",
such as the default; otherwise `location.replace` is called exactly once,
with `pLink`, also when the current location already is `pLink`; nothing
else changes. -/
theorem redirect_once_unless_disguised (currentUrl pLink : String) (s : St) :
    redirectStep currentUrl pLink s =
      (if includes currentUrl "google.com" = true then s
       else { s with log := s.log ++ [Effect.locationReplace pLink] }) ∧
    navigations (redirectStep currentUrl pLink s).log =
      navigations s.log ++
        (if includes currentUrl "google.com" = true then []
         else [Effect.locationReplace pLink]) ∧
    (matchesDestination currentUrl pLink && includes pLink "google.com" &&
      !includes currentUrl "google.com") = false := by
  have hlog := redirectStep_log currentUrl pLink s
  have hdest : (matchesDestination currentUrl pLink && includes pLink "google.com" &&
      !includes currentUrl "google.com") = false := by
    cases hm : matchesDestination currentUrl pLink with
    | false => simp
    | true =>
      cases hp : includes pLink "google.com" with
      | false => simp
      | true => simp [includes_of_startsWith currentUrl pLink "google.com" hm hp]
  cases hg : includes currentUrl "google.com" with
  | true =>
    rw [hg] at hdest
    exact ⟨by simp [redirectStep, hg], by simp [redirectStep, hg], hdest⟩
  | false =>
    have hd : includes currentUrl "drive.google.com" = false := by
      cases hd : includes currentUrl "drive.google.com" with
      | true => rw [includes_drive_imp_google currentUrl hd] at hg; cases hg
      | false => rfl
    rw [hg] at hdest
    exact ⟨by simp [redirectStep, hg, hd], by simp [redirectStep, hg, hd, navigations], hdest⟩

/-! ## Claims on the panic key and the settings record -/

theorem panicHandler_eq (settings : Settings) (e : KeyEvent) (activeTag : String) :
    panicHandler settings e activeTag =
      if e.key = settings.panicKey ∧ e.ctrlKey = false ∧ e.metaKey = false ∧
          e.altKey = false ∧ activeTag ≠ "INPUT" ∧ activeTag ≠ "TEXTAREA"
      then [Effect.preventDefault, Effect.setLocationHref settings.panicUrl] else [] := by
  unfold panicHandler
  by_cases hk : e.key = settings.panicKey <;> cases e.ctrlKey <;> cases e.metaKey <;>
    cases e.altKey <;> by_cases h1 : activeTag = "INPUT" <;>
    by_cases h2 : activeTag = "TEXTAREA" <;> simp [hk, h1, h2]

theorem earlyPanicHandler_eq (panicKey panicUrl : String) (e : KeyEvent) (activeTag : String) :
    earlyPanicHandler panicKey panicUrl e activeTag =
      if e.key = panicKey ∧ e.ctrlKey = false ∧ e.metaKey = false ∧
          e.altKey = false ∧ activeTag ≠ "INPUT" ∧ activeTag ≠ "TEXTAREA"
      then [Effect.preventDefault, Effect.setLocationHref panicUrl] else [] := by
  unfold earlyPanicHandler
  by_cases hk : e.key = panicKey <;> cases e.ctrlKey <;> cases e.metaKey <;>
    cases e.altKey <;> by_cases h1 : activeTag = "INPUT" <;>
    by_cases h2 : activeTag = "TEXTAREA" <;> simp [hk, h1, h2]

/-- C7, refuted as stated: with Shift held and every other condition met,
both panic handlers still cancel the event and navigate. -/
theorem panic_fires_with_shift_counterexample :
    panicHandler
        { customTitle := "", customFavicon := "", panicKey := "~"
          panicUrl := "https://drive.google.com", openInAboutBlank := none }
        { key := "~", ctrlKey := false, metaKey := false, altKey := false, shiftKey := true }
        "BODY"
      = [Effect.preventDefault, Effect.setLocationHref "https://drive.google.com"] ∧
    earlyPanicHandler "~" "https://drive.google.com"
        { key := "~", ctrlKey := false, metaKey := false, altKey := false, shiftKey := true }
        "BODY"
      = [Effect.preventDefault, Effect.setLocationHref "https://drive.google.com"] := by
  decide

/-- C7, amended: for every keydown event, each panic handler cancels the
event and navigates to the configured panic URL if and only if the pressed key
equals the configured panic key exactly, none of Ctrl, Meta and Alt is held
(Shift is not looked at), and the focused element is neither an INPUT nor a
TEXTAREA; in every other case it does nothing. -/
theorem panic_fires_iff (settings : Settings) (panicKey panicUrl : String) (e : KeyEvent)
    (activeTag : String) :
    (panicHandler settings e activeTag =
        [Effect.preventDefault, Effect.setLocationHref settings.panicUrl] ↔
      (e.key = settings.panicKey ∧ e.ctrlKey = false ∧ e.metaKey = false ∧
        e.altKey = false ∧ activeTag ≠ "INPUT" ∧ activeTag ≠ "TEXTAREA")) ∧
    (panicHandler settings e activeTag = [] ↔
      ¬ (e.key = settings.panicKey ∧ e.ctrlKey = false ∧ e.metaKey = false ∧
        e.altKey = false ∧ activeTag ≠ "INPUT" ∧ activeTag ≠ "TEXTAREA")) ∧
    (earlyPanicHandler panicKey panicUrl e activeTag =
        [Effect.preventDefault, Effect.setLocationHref panicUrl] ↔
      (e.key = panicKey ∧ e.ctrlKey = false ∧ e.metaKey = false ∧
        e.altKey = false ∧ activeTag ≠ "INPUT" ∧ activeTag ≠ "TEXTAREA")) ∧
    (earlyPanicHandler panicKey panicUrl e activeTag = [] ↔
      ¬ (e.key = panicKey ∧ e.ctrlKey = false ∧ e.metaKey = false ∧
        e.altKey = false ∧ activeTag ≠ "INPUT" ∧ activeTag ≠ "TEXTAREA")) := by
  rw [panicHandler_eq, earlyPanicHandler_eq]
  refine ⟨?_, ?_, ?_, ?_⟩ <;> split <;> simp_all

/-! ## Panic listener invariant -/

theorem erase_append_singleton (pre : List Listener) (l : Listener) (h : l ∉ pre) :
    (pre ++ [l]).erase l = pre := by
  rw [List.erase_append_right _ h]
  simp

theorem managerPanic_not_mem (pre : List Listener)
    (hpre : ∀ l ∈ pre, isManagerPanic l = false) (h : Nat) :
    Listener.managerPanic h ∉ pre := by
  intro hm
  have := hpre _ hm
  simp [isManagerPanic] at this

theorem initPanicSystem_inv (pre : List Listener)
    (hpre : ∀ l ∈ pre, isManagerPanic l = false) (s : St)
    (hs : PanicInv pre s ∨ (s.mgr.panicHandler = none ∧ s.page.keydownListeners = pre)) :
    PanicInv pre (initPanicSystem s) ∧ (initPanicSystem s).mgr.settings = s.mgr.settings := by
  refine ⟨?_, rfl⟩
  refine ⟨s.page.nextHandler, rfl, ?_⟩
  have hnew := managerPanic_not_mem pre hpre s.page.nextHandler
  rcases hs with ⟨h, hh, hl⟩ | ⟨hn, hl⟩
  · simp only [initPanicSystem, hh, hl, removeListener]
    rw [erase_append_singleton pre _ (managerPanic_not_mem pre hpre h)]
    simp [addListener, hnew]
  · simp only [initPanicSystem, hn, hl]
    simp [addListener, hnew]

theorem saveSettings_frame (s : St) :
    (saveSettings s).mgr = s.mgr ∧ (saveSettings s).log = s.log ∧
    (saveSettings s).page.sessionStorage = s.page.sessionStorage ∧
    (saveSettings s).page.keydownListeners = s.page.keydownListeners ∧
    (saveSettings s).page.settingsModal = s.page.settingsModal :=
  ⟨rfl, rfl, rfl, rfl, rfl⟩

theorem fillForm_frame (f : FormValues) (s : St) :
    (fillForm f s).mgr = s.mgr ∧ (fillForm f s).log = s.log ∧
    (fillForm f s).page.keydownListeners = s.page.keydownListeners := by
  unfold fillForm
  cases s.page.settingsModal <;> simp

theorem construct_inv (env : Env) (p : Page)
    (hpre : ∀ l ∈ p.keydownListeners, isManagerPanic l = false) :
    PanicInv p.keydownListeners (construct env p) := by
  have h0 := (initPanicSystem_inv p.keydownListeners hpre
    (applySettings (loadSettings (freshSt p)))
    (Or.inr ⟨by rw [(applySettings_frame _).1]; rfl,
      by rw [(applySettings_frame _).2.2.2.2.1]; rfl⟩)).1
  obtain ⟨h, hh, hl⟩ := h0
  obtain ⟨m1, m2, m3, m4, m5, m6, m7, m8⟩ :=
    initSettingsModal_frame (initPanicSystem (applySettings (loadSettings (freshSt p))))
  obtain ⟨c1, c2, c3, c4⟩ := initCloakCheck_frame env
    (initSettingsModal (initPanicSystem (applySettings (loadSettings (freshSt p)))))
  obtain ⟨f1, f2, f3, f4, f5⟩ := initFrameCheck_frame env (initCloakCheck env
    (initSettingsModal (initPanicSystem (applySettings (loadSettings (freshSt p))))))
  refine ⟨h, ?_, ?_⟩
  · show (init env (freshSt p)).mgr.panicHandler = some h
    simp only [init]
    rw [f2, c3, m6, hh]
  · show (init env (freshSt p)).page.keydownListeners = _
    simp only [init]
    rw [f5, c1, m4, hl]

theorem reconfigure_inv (pre : List Listener)
    (hpre : ∀ l ∈ pre, isManagerPanic l = false) (s : St) (f : FormValues)
    (hs : PanicInv pre s) : PanicInv pre (reconfigure s f) := by
  obtain ⟨g1, g2, g3⟩ := fillForm_frame f s
  have hfill : PanicInv pre (fillForm f s) := by
    obtain ⟨h, hh, hl⟩ := hs
    exact ⟨h, by rw [g1, hh], by rw [g3, hl]⟩
  unfold reconfigure saveSettingsFromForm
  split
  · exact hfill
  · rename_i c hc
    simp only
    refine ⟨_, rfl, ?_⟩
    obtain ⟨h, hh, hl⟩ := hfill
    have := (initPanicSystem_inv pre hpre
      (applySettings (saveSettings { (fillForm f s) with mgr := { (fillForm f s).mgr with
        settings := { (fillForm f s).mgr.settings with
          customTitle := jsTrim c.customTitle
          customFavicon := jsTrim c.customFavicon
          panicKey := orDefault (some c.panicKey) "`"
          panicUrl := orDefault (some c.panicUrl) "https://drive.google.com" } } }))
      (Or.inl ⟨h, by rw [(applySettings_frame _).1]; exact hh,
        by rw [(applySettings_frame _).2.2.2.2.1]; exact hl⟩)).1
    obtain ⟨h', hh', hl'⟩ := this
    simp only [initPanicSystem] at hh' hl' ⊢
    cases hh'
    exact hl'

theorem foldl_reconfigure_inv (pre : List Listener)
    (hpre : ∀ l ∈ pre, isManagerPanic l = false) (forms : List FormValues) (s : St)
    (hs : PanicInv pre s) : PanicInv pre (forms.foldl reconfigure s) := by
  induction forms generalizing s with
  | nil => exact hs
  | cons f rest ih => exact ih _ (reconfigure_inv pre hpre s f hs)

theorem initFrameCheck_modal (env : Env) (s : St) :
    (initFrameCheck env s).page.settingsModal = s.page.settingsModal := by
  unfold initFrameCheck initIframeLinkInterception
  split <;> rfl

theorem applySettings_hasForm (s : St) : hasForm (applySettings s) = hasForm s := by
  unfold hasForm
  rw [(applySettings_frame s).2.2.2.2.2.2]

theorem construct_hasForm (env : Env) (p : Page) (hmodal : p.settingsModal = none) :
    hasForm (construct env p) = true := by
  have h1 : (applySettings (loadSettings (freshSt p))).page.settingsModal = none := by
    rw [(applySettings_frame _).2.2.2.2.2.2]; exact hmodal
  have h2 : (initPanicSystem (applySettings (loadSettings (freshSt p)))).page.settingsModal
      = none := h1
  have h3 : hasForm (initSettingsModal
      (initPanicSystem (applySettings (loadSettings (freshSt p))))) = true := by
    simp [hasForm, initSettingsModal, createSettingsModal, bindSettingsEvents, h2]
  unfold hasForm at h3 ⊢
  show (match (init env (freshSt p)).page.settingsModal with
    | some modal => modal.content.isSome
    | none => false) = true
  simp only [init]
  rw [initFrameCheck_modal, (initCloakCheck_frame env _).1]
  exact h3

theorem reconfigure_hasForm (s : St) (f : FormValues) (hform : hasForm s = true) :
    hasForm (reconfigure s f) = true ∧
    (reconfigure s f).mgr.settings.panicKey = orDefault (some (sanitizeText f.panicKey)) "`" ∧
    (reconfigure s f).mgr.settings.panicUrl =
      orDefault (some (sanitizeUrl f.panicUrl)) "https://drive.google.com" := by
  unfold hasForm at hform
  cases hm : s.page.settingsModal with
  | none => simp [hm] at hform
  | some modal =>
    cases hc : modal.content with
    | none => simp [hm, hc] at hform
    | some c =>
      have hfill : ∃ c', (fillForm f s).page.settingsModal = some ⟨modal.display, some c'⟩ ∧
          c'.panicKey = sanitizeText f.panicKey ∧ c'.panicUrl = sanitizeUrl f.panicUrl := by
        refine ⟨⟨sanitizeText f.customTitle, sanitizeUrl f.customFavicon,
          sanitizeText f.panicKey, sanitizeUrl f.panicUrl, c.aboutBlankCheck,
          c.closeBound, c.closeClick, c.formBound, c.formSubmit, c.resetClick, c.checkChange⟩,
          ?_, rfl, rfl⟩
        simp only [fillForm, hm, hc, Option.map]
      obtain ⟨c', hfill, hk, hu⟩ := hfill
      unfold reconfigure saveSettingsFromForm
      simp only [hfill, Option.bind]
      refine ⟨?_, ?_, ?_⟩
      · simp only [hasForm, initPanicSystem]
        rw [(applySettings_frame _).2.2.2.2.2.2]
        simp [saveSettings, hfill]
      · simp only [initPanicSystem]
        rw [(applySettings_frame _).1, ← hk]
        rfl
      · simp only [initPanicSystem]
        rw [(applySettings_frame _).1, ← hu]
        rfl

theorem foldl_reconfigure_hasForm (forms : List FormValues) (s : St)
    (hform : hasForm s = true) : hasForm (forms.foldl reconfigure s) = true := by
  induction forms generalizing s with
  | nil => exact hform
  | cons f rest ih => exact ih _ (reconfigure_hasForm s f hform).1

theorem dispatchKeydown_of_inv (pre : List Listener) (s : St) (hs : PanicInv pre s)
    (e : KeyEvent) (activeTag : String) :
    dispatchKeydown s e activeTag =
      (pre.map (runListener s e activeTag)).flatten ++ panicHandler s.mgr.settings e activeTag := by
  obtain ⟨h, _, hl⟩ := hs
  simp [dispatchKeydown, hl, runListener]

theorem managerListenerCount_of_inv (pre : List Listener)
    (hpre : ∀ l ∈ pre, isManagerPanic l = false) (s : St) (hs : PanicInv pre s) :
    managerListenerCount s.page.keydownListeners = 1 := by
  obtain ⟨h, _, hl⟩ := hs
  have hf : pre.filter isManagerPanic = [] := by
    rw [List.filter_eq_nil_iff]
    intro l hl'
    simp [hpre l hl']
  simp [managerListenerCount, hl, List.filter_append, hf, isManagerPanic]

/-- The manager's own share of the keydown listeners: after construction and
any sequence of reconfigurations (fill the form, `saveSettingsFromForm`), the
document's keydown listeners are the ones it had before the manager existed,
untouched, followed by exactly one panic listener of the manager, the one the
manager holds; on a matching key press that listener navigates once, to the
panic URL currently in the settings record, which is what the last form
submitted (or the default for an empty field). -/
theorem manager_panic_listener_unique (env : Env) (p : Page)
    (forms : List FormValues)
    (hpre : ∀ l ∈ p.keydownListeners, isManagerPanic l = false) :
    (∃ h, (forms.foldl reconfigure (construct env p)).mgr.panicHandler = some h ∧
      (forms.foldl reconfigure (construct env p)).page.keydownListeners =
        p.keydownListeners ++ [Listener.managerPanic h]) ∧
    managerListenerCount (forms.foldl reconfigure (construct env p)).page.keydownListeners = 1 ∧
    (∀ (e : KeyEvent) (activeTag : String),
      e.key = (forms.foldl reconfigure (construct env p)).mgr.settings.panicKey →
      e.ctrlKey = false → e.metaKey = false → e.altKey = false →
      activeTag ≠ "INPUT" → activeTag ≠ "TEXTAREA" →
      dispatchKeydown (forms.foldl reconfigure (construct env p)) e activeTag =
        (p.keydownListeners.map
          (runListener (forms.foldl reconfigure (construct env p)) e activeTag)).flatten ++
        [Effect.preventDefault,
         Effect.setLocationHref
           (forms.foldl reconfigure (construct env p)).mgr.settings.panicUrl] ∧
      (p.keydownListeners = [] →
        navigations (dispatchKeydown (forms.foldl reconfigure (construct env p)) e activeTag) =
          [Effect.setLocationHref
            (forms.foldl reconfigure (construct env p)).mgr.settings.panicUrl])) ∧
    (∀ (earlier : List FormValues) (f : FormValues),
      forms = earlier ++ [f] → p.settingsModal = none →
      (forms.foldl reconfigure (construct env p)).mgr.settings.panicKey =
        (if sanitizeText f.panicKey = "" then "`" else sanitizeText f.panicKey) ∧
      (forms.foldl reconfigure (construct env p)).mgr.settings.panicUrl =
        (if sanitizeUrl f.panicUrl = "" then "https://drive.google.com"
         else sanitizeUrl f.panicUrl)) := by
  have hinv := foldl_reconfigure_inv p.keydownListeners hpre forms (construct env p)
    (construct_inv env p hpre)
  refine ⟨hinv, managerListenerCount_of_inv _ hpre _ hinv, ?_, ?_⟩
  · intro e activeTag hk hc hm ha h1 h2
    have hd := dispatchKeydown_of_inv _ _ hinv e activeTag
    have hp : panicHandler (forms.foldl reconfigure (construct env p)).mgr.settings e activeTag =
        [Effect.preventDefault,
         Effect.setLocationHref
           (forms.foldl reconfigure (construct env p)).mgr.settings.panicUrl] := by
      rw [panicHandler_eq]; simp [hk, hc, hm, ha, h1, h2]
    rw [hp] at hd
    refine ⟨hd, ?_⟩
    intro hnil
    rw [hd, hnil]
    simp [navigations]
  · intro earlier f hforms hmodal
    subst hforms
    rw [List.foldl_append]
    simp only [List.foldl_cons, List.foldl_nil]
    have hform := foldl_reconfigure_hasForm earlier _ (construct_hasForm env p hmodal)
    obtain ⟨_, r2, r3⟩ := reconfigure_hasForm _ f hform
    rw [r2, r3]
    simp [orDefault]

/-- C8, the failing input: both scripts run on a page with empty storage,
login/index.js first.  After the settings form is saved with panic key "q"
and panic URL "https://example.org", the document holds two panic keydown
listeners, and a press of the old key "`" on BODY still navigates, to the old
address; after a save that keeps the key and changes only the URL, one press
of "`" navigates twice, first to the old address and then to the new one. -/
theorem early_panic_listener_survives_reconfiguration :
    (reconfigure (construct chromeEnv (earlyPanicInit plainPage))
        changeKeyForm).page.keydownListeners =
      [Listener.earlyPanic "`" "https://drive.google.com", Listener.managerPanic 1] ∧
    (reconfigure (construct chromeEnv (earlyPanicInit plainPage))
        changeKeyForm).mgr.settings.panicKey = "q" ∧
    (reconfigure (construct chromeEnv (earlyPanicInit plainPage))
        changeKeyForm).mgr.settings.panicUrl = "https://example.org" ∧
    dispatchKeydown (reconfigure (construct chromeEnv (earlyPanicInit plainPage)) changeKeyForm)
        (backtickKey false) "BODY" =
      [Effect.preventDefault, Effect.setLocationHref "https://drive.google.com"] ∧
    dispatchKeydown (reconfigure (construct chromeEnv (earlyPanicInit plainPage)) changeUrlForm)
        (backtickKey false) "BODY" =
      [Effect.preventDefault, Effect.setLocationHref "https://drive.google.com",
       Effect.preventDefault, Effect.setLocationHref "https://example.org"] := by
  decide

/-- C9, refuted as stated: a `settings_panicKey` (or `settings_panicUrl`)
that is present with the empty string as its value is not what `loadSettings`
puts in the field; the default is. -/
theorem load_empty_value_counterexample :
    getItem [("settings_panicKey", ""), ("settings_panicUrl", "")] "settings_panicKey"
      = some "" ∧
    getItem [("settings_panicKey", ""), ("settings_panicUrl", "")] "settings_panicUrl"
      = some "" ∧
    (loadSettings (freshSt { cloakPage with
        localStorage := [("settings_panicKey", ""), ("settings_panicUrl", "")] })).mgr.settings.panicKey
      = "`" ∧
    (loadSettings (freshSt { cloakPage with
        localStorage := [("settings_panicKey", ""), ("settings_panicUrl", "")] })).mgr.settings.panicUrl
      = "https://drive.google.com" := by
  decide

/-- C9, amended: for every persistent-storage state, `loadSettings` sets each
of the four fields to the value stored under its `settings_` key when that key
is present with a non-empty value, and to its fixed default (customTitle "",
customFavicon "", panicKey "`", panicUrl "https://drive.google.com") when the
key is absent or holds the empty string; empty storage yields panicKey "`"
and panicUrl "https://drive.google.com". -/
theorem load_settings_defaults (s : St) :
    (loadSettings s).mgr.settings.customTitle =
      (match getItem s.page.localStorage "settings_customTitle" with
       | some v => v
       | none => "") ∧
    (loadSettings s).mgr.settings.customFavicon =
      (match getItem s.page.localStorage "settings_customFavicon" with
       | some v => v
       | none => "") ∧
    (loadSettings s).mgr.settings.panicKey =
      (match getItem s.page.localStorage "settings_panicKey" with
       | some v => if v = "" then "`" else v
       | none => "`") ∧
    (loadSettings s).mgr.settings.panicUrl =
      (match getItem s.page.localStorage "settings_panicUrl" with
       | some v => if v = "" then "https://drive.google.com" else v
       | none => "https://drive.google.com") ∧
    (loadSettings { s with page := { s.page with localStorage := [] } }).mgr.settings.panicKey
      = "`" ∧
    (loadSettings { s with page := { s.page with localStorage := [] } }).mgr.settings.panicUrl
      = "https://drive.google.com" := by
  refine ⟨?_, ?_, ?_, ?_, rfl, rfl⟩
  · simp only [loadSettings, orDefault]
    cases getItem s.page.localStorage "settings_customTitle" with
    | none => rfl
    | some v => by_cases hv : v = "" <;> simp [hv]
  · simp only [loadSettings, orDefault]
    cases getItem s.page.localStorage "settings_customFavicon" with
    | none => rfl
    | some v => by_cases hv : v = "" <;> simp [hv]
  · simp only [loadSettings, orDefault]
  · simp only [loadSettings, orDefault]

/-- C10: after `resetSettings` the in-memory record holds the literal
defaults, the four `settings_` keys of persistent storage hold them too and
every other key (the `aboutBlank` toggle included) reads as before, session
storage and the registered listeners are untouched, and the manager's panic
listener answers "`" (outside INPUT and TEXTAREA) by cancelling the event and
navigating to "https://drive.google.com". -/
theorem reset_restores_defaults (s : St) (k : String) (shift : Bool) (activeTag : String)
    (id : Nat) :
    (resetSettings s).mgr.settings.customTitle = "" ∧
    (resetSettings s).mgr.settings.customFavicon = "" ∧
    (resetSettings s).mgr.settings.panicKey = "`" ∧
    (resetSettings s).mgr.settings.panicUrl = "https://drive.google.com" ∧
    getItem (resetSettings s).page.localStorage k =
      (if k = "settings_customTitle" then some ""
       else if k = "settings_customFavicon" then some ""
       else if k = "settings_panicKey" then some "`"
       else if k = "settings_panicUrl" then some "https://drive.google.com"
       else getItem s.page.localStorage k) ∧
    getItem (resetSettings s).page.localStorage "aboutBlank" =
      getItem s.page.localStorage "aboutBlank" ∧
    (resetSettings s).page.sessionStorage = s.page.sessionStorage ∧
    (resetSettings s).page.keydownListeners = s.page.keydownListeners ∧
    (resetSettings s).mgr.panicHandler = s.mgr.panicHandler ∧
    runListener (resetSettings s) (backtickKey shift) activeTag (Listener.managerPanic id) =
      (if activeTag ≠ "INPUT" ∧ activeTag ≠ "TEXTAREA"
       then [Effect.preventDefault, Effect.setLocationHref "https://drive.google.com"]
       else []) := by
  have hm : (resetSettings s).mgr = { s.mgr with settings :=
      { customTitle := "", customFavicon := "", panicKey := "`"
        panicUrl := "https://drive.google.com", openInAboutBlank := some false } } := by
    unfold resetSettings
    simp only
    rw [(applySettings_frame _).1]
    rfl
  have hls : ∀ k', getItem (resetSettings s).page.localStorage k' =
      (if k' = "settings_customTitle" then some ""
       else if k' = "settings_customFavicon" then some ""
       else if k' = "settings_panicKey" then some "`"
       else if k' = "settings_panicUrl" then some "https://drive.google.com"
       else getItem s.page.localStorage k') := by
    intro k'
    unfold resetSettings
    simp only
    rw [(applySettings_frame _).2.2.1]
    simp only [saveSettings, getItem_setItem]
    by_cases h1 : k' = "settings_customTitle"
    · subst h1; simp
    · by_cases h2 : k' = "settings_customFavicon"
      · subst h2; simp
      · by_cases h3 : k' = "settings_panicKey"
        · subst h3; simp
        · by_cases h4 : k' = "settings_panicUrl"
          · subst h4; simp
          · simp [h1, h2, h3, h4]
  refine ⟨by rw [hm], by rw [hm], by rw [hm], by rw [hm], hls k, ?_, ?_, ?_, by rw [hm], ?_⟩
  · rw [hls]; simp
  · unfold resetSettings
    simp only
    rw [(applySettings_frame _).2.2.2.1]
    rfl
  · unfold resetSettings
    simp only
    rw [(applySettings_frame _).2.2.2.2.1]
    rfl
  · simp only [runListener, hm, panicHandler_eq, backtickKey]
    simp

/-! ## Claims on save/load and on the cloak check of `init` -/

theorem getItem_saveSettings (s : St) (k : String) :
    getItem (saveSettings s).page.localStorage k =
      (if k = "settings_customTitle" then some s.mgr.settings.customTitle
       else if k = "settings_customFavicon" then some s.mgr.settings.customFavicon
       else if k = "settings_panicKey" then some s.mgr.settings.panicKey
       else if k = "settings_panicUrl" then some s.mgr.settings.panicUrl
       else getItem s.page.localStorage k) := by
  simp only [saveSettings, getItem_setItem]
  by_cases h1 : k = "settings_customTitle"
  · subst h1; simp
  · by_cases h2 : k = "settings_customFavicon"
    · subst h2; simp
    · by_cases h3 : k = "settings_panicKey"
      · subst h3; simp
      · by_cases h4 : k = "settings_panicUrl"
        · subst h4; simp
        · simp [h1, h2, h3, h4]

/-- C11, refuted as stated: a record whose panic key and panic URL are empty
strings comes back from save-then-load with the defaults in those fields. -/
theorem save_load_empty_counterexample :
    blankKeySt.mgr.settings.panicKey = "" ∧
    blankKeySt.mgr.settings.panicUrl = "" ∧
    (loadSettings (saveSettings blankKeySt)).mgr.settings.panicKey = "`" ∧
    (loadSettings (saveSettings blankKeySt)).mgr.settings.panicUrl
      = "https://drive.google.com" := by
  decide

/-- C11, amended: for every settings record of four strings, `saveSettings`
followed by `loadSettings` yields the same customTitle and customFavicon, and
the same panicKey and panicUrl whenever these are non-empty (an empty panicKey
or panicUrl comes back as its default); `saveSettings` writes the four fields
under the four `settings_` keys and leaves every other key of persistent
storage, and session storage, as they were. -/
theorem save_load_round_trip (s : St) (k : String) :
    (loadSettings (saveSettings s)).mgr.settings.customTitle = s.mgr.settings.customTitle ∧
    (loadSettings (saveSettings s)).mgr.settings.customFavicon = s.mgr.settings.customFavicon ∧
    (loadSettings (saveSettings s)).mgr.settings.panicKey =
      (if s.mgr.settings.panicKey = "" then "`" else s.mgr.settings.panicKey) ∧
    (loadSettings (saveSettings s)).mgr.settings.panicUrl =
      (if s.mgr.settings.panicUrl = "" then "https://drive.google.com"
       else s.mgr.settings.panicUrl) ∧
    getItem (saveSettings s).page.localStorage k =
      (if k = "settings_customTitle" then some s.mgr.settings.customTitle
       else if k = "settings_customFavicon" then some s.mgr.settings.customFavicon
       else if k = "settings_panicKey" then some s.mgr.settings.panicKey
       else if k = "settings_panicUrl" then some s.mgr.settings.panicUrl
       else getItem s.page.localStorage k) ∧
    (saveSettings s).page.sessionStorage = s.page.sessionStorage := by
  refine ⟨?_, ?_, ?_, ?_, getItem_saveSettings s k, rfl⟩
  · simp only [loadSettings, getItem_saveSettings]
    by_cases h : s.mgr.settings.customTitle = "" <;> simp [orDefault, h]
  · simp only [loadSettings, getItem_saveSettings]
    by_cases h : s.mgr.settings.customFavicon = "" <;> simp [orDefault, h]
  · simp only [loadSettings, getItem_saveSettings]
    simp [orDefault]
  · simp only [loadSettings, getItem_saveSettings]
    simp [orDefault]

theorem scheduled_append (a b : List Effect) :
    scheduled (a ++ b) = scheduled a ++ scheduled b := by
  induction a with
  | nil => rfl
  | cons e rest ih => cases e <;> simp [scheduled, ih]

theorem truthy_eq_false_iff (v : Option String) :
    truthy v = false ↔ (v = none ∨ v = some "") := by
  cases v with
  | none => simp [truthy]
  | some x => simp [truthy]

/-- Whether the cloak check of `init` defers a call in state `s`. -/
theorem initCloakCheck_spec (env : Env) (s : St) :
    (initCloakCheck env s).log = s.log ++
      (if getItem s.page.localStorage "aboutBlank" = some "true" ∧
          truthy (getItem s.page.sessionStorage "aboutBlankActivated") = false ∧
          s.mgr.aboutBlankInitStarted = false
       then [if env.readyComplete = true then Effect.setTimeout Task.initAboutBlank 50
             else Effect.onLoadOnce Task.initAboutBlank 50]
       else []) ∧
    (initCloakCheck env s).mgr.aboutBlankInitStarted =
      (if getItem s.page.localStorage "aboutBlank" = some "true" ∧
          truthy (getItem s.page.sessionStorage "aboutBlankActivated") = false
       then true else s.mgr.aboutBlankInitStarted) := by
  unfold initCloakCheck
  by_cases ht : getItem s.page.localStorage "aboutBlank" = some "true" <;>
    cases hf : truthy (getItem s.page.sessionStorage "aboutBlankActivated") <;>
    cases hs : s.mgr.aboutBlankInitStarted <;>
    cases hr : env.readyComplete <;> simp [ht, hf, hs, hr]

theorem init_spec (env : Env) (s : St) :
    (init env s).log = s.log ++ Effect.setTimeout Task.bindSettingsEvents 50 ::
      (if getItem s.page.localStorage "aboutBlank" = some "true" ∧
          truthy (getItem s.page.sessionStorage "aboutBlankActivated") = false ∧
          s.mgr.aboutBlankInitStarted = false
       then [if env.readyComplete = true then Effect.setTimeout Task.initAboutBlank 50
             else Effect.onLoadOnce Task.initAboutBlank 50]
       else []) ∧
    (init env s).mgr.aboutBlankInitStarted =
      (if getItem s.page.localStorage "aboutBlank" = some "true" ∧
          truthy (getItem s.page.sessionStorage "aboutBlankActivated") = false
       then true else s.mgr.aboutBlankInitStarted) := by
  obtain ⟨t1, t2, t3, _, t5⟩ := init_prefix_frame s
  obtain ⟨f1, f2, _, _, _⟩ := initFrameCheck_frame env (initCloakCheck env
    (initSettingsModal (initPanicSystem (applySettings (loadSettings s)))))
  obtain ⟨c1, c2⟩ := initCloakCheck_spec env
    (initSettingsModal (initPanicSystem (applySettings (loadSettings s))))
  rw [t1, t2, t3, t5] at c1
  rw [t2, t3, t5] at c2
  simp only [init]
  refine ⟨?_, ?_⟩
  · rw [f1, c1]; simp
  · rw [f2, c2]

theorem deferredCloakCalls_init (env : Env) (s : St) :
    deferredCloakCalls (init env s).log = deferredCloakCalls s.log +
      (if getItem s.page.localStorage "aboutBlank" = some "true" ∧
          truthy (getItem s.page.sessionStorage "aboutBlankActivated") = false ∧
          s.mgr.aboutBlankInitStarted = false
       then 1 else 0) := by
  rw [(init_spec env s).1]
  unfold deferredCloakCalls
  rw [scheduled_append, List.count_append]
  split
  · cases env.readyComplete <;> simp [scheduled]
  · simp [scheduled]

/-- The latch `_aboutBlankInitStarted` records whether a call was deferred. -/
theorem init_started_inv (env : Env) (s : St)
    (h : deferredCloakCalls s.log = if s.mgr.aboutBlankInitStarted = true then 1 else 0) :
    deferredCloakCalls (init env s).log =
      if (init env s).mgr.aboutBlankInitStarted = true then 1 else 0 := by
  rw [deferredCloakCalls_init, (init_spec env s).2, h]
  by_cases ht : getItem s.page.localStorage "aboutBlank" = some "true" <;>
    cases hf : truthy (getItem s.page.sessionStorage "aboutBlankActivated") <;>
    cases hs : s.mgr.aboutBlankInitStarted <;> simp_all

theorem initAgain_started_inv (steps : List InitStep) (s : St)
    (h : deferredCloakCalls s.log = if s.mgr.aboutBlankInitStarted = true then 1 else 0) :
    deferredCloakCalls (steps.foldl initAgain s).log =
      if (steps.foldl initAgain s).mgr.aboutBlankInitStarted = true then 1 else 0 := by
  induction steps generalizing s with
  | nil => exact h
  | cons st rest ih =>
    apply ih
    exact init_started_inv st.env _ h

/-- C12, refuted as stated: with the toggle "true" and the session flag
present but empty, `init` still defers a call of `initAboutBlank`. -/
theorem cloak_deferred_with_empty_flag_counterexample :
    getItem emptyFlagPage.localStorage "aboutBlank" = some "true" ∧
    getItem emptyFlagPage.sessionStorage "aboutBlankActivated" = some "" ∧
    (construct chromeEnv emptyFlagPage).log =
      [Effect.setTimeout Task.bindSettingsEvents 50,
       Effect.setTimeout Task.initAboutBlank 50] := by
  decide

/-- C12, amended: the `init` of a new manager defers exactly one call of
`initAboutBlank` (by a 50 ms timer, after the load event when the document is
not complete yet) if the persistent toggle is "true" and the session flag is
absent or the empty string, and defers none otherwise; however often `init`
runs again on that manager and whatever storage holds by then, the manager
defers at most one call in all. -/
theorem cloak_call_deferred_iff (env : Env) (p : Page) (steps : List InitStep) :
    (construct env p).log = Effect.setTimeout Task.bindSettingsEvents 50 ::
      (if getItem p.localStorage "aboutBlank" = some "true" ∧
          (getItem p.sessionStorage "aboutBlankActivated" = none ∨
           getItem p.sessionStorage "aboutBlankActivated" = some "")
       then [if env.readyComplete = true then Effect.setTimeout Task.initAboutBlank 50
             else Effect.onLoadOnce Task.initAboutBlank 50]
       else []) ∧
    deferredCloakCalls (construct env p).log =
      (if getItem p.localStorage "aboutBlank" = some "true" ∧
          (getItem p.sessionStorage "aboutBlankActivated" = none ∨
           getItem p.sessionStorage "aboutBlankActivated" = some "")
       then 1 else 0) ∧
    deferredCloakCalls (steps.foldl initAgain (construct env p)).log ≤ 1 := by
  have hpage : (freshSt p).page = p := rfl
  have hlog : (freshSt p).log = [] := rfl
  have hstarted : (freshSt p).mgr.aboutBlankInitStarted = false := rfl
  have hc : construct env p = init env (freshSt p) := rfl
  have hspec := (init_spec env (freshSt p)).1
  have hcount := deferredCloakCalls_init env (freshSt p)
  rw [← hc] at hspec hcount
  simp only [hpage, hlog, hstarted, and_true, List.nil_append, truthy_eq_false_iff]
    at hspec hcount
  refine ⟨hspec, ?_, ?_⟩
  · rw [hcount]
    simp [deferredCloakCalls, scheduled]
  · have h0 : deferredCloakCalls (freshSt p).log =
        if (freshSt p).mgr.aboutBlankInitStarted = true then 1 else 0 := by
      simp [freshSt, newManager, deferredCloakCalls, scheduled]
    have h := initAgain_started_inv steps (construct env p) (init_started_inv env _ h0)
    rw [h]
    split <;> simp

/-! ## Claims on repeated calls, frames and Firefox -/

theorem initAboutBlank_latched (env : Env) (s : St) (h : s.mgr.aboutBlankRunning = true) :
    initAboutBlank env s = (Completion.returned, s) := by
  simp [initAboutBlank, h]

/-- In a frame whose probe answers, and in a top-level Firefox window, a call
that starts with the latch clear returns without popup, alert, timer or
storage write, and with the latch clear. -/
theorem initAboutBlank_passive (env : Env) (s : St)
    (hlatch : s.mgr.aboutBlankRunning = false)
    (hctx : env.frameProbe = FrameProbe.framed ∨
      (env.frameProbe = FrameProbe.top ∧ includes env.userAgent "Firefox" = true)) :
    (initAboutBlank env s).1 = Completion.returned ∧
    (initAboutBlank env s).2.log = s.log ∧
    (initAboutBlank env s).2.page.localStorage = s.page.localStorage ∧
    (initAboutBlank env s).2.page.sessionStorage = s.page.sessionStorage ∧
    (initAboutBlank env s).2.mgr.aboutBlankRunning = false := by
  unfold initAboutBlank
  simp only [hlatch, Bool.false_eq_true, if_false]
  by_cases ht : getItem s.page.localStorage "aboutBlank" = some "true"
  · cases hf : truthy (getItem s.page.sessionStorage "aboutBlankActivated") with
    | true => simp [ht, hf, hlatch]
    | false =>
      rcases hctx with hfr | ⟨htop, hff⟩
      · simp [ht, hf, hfr, initIframeLinkInterception]
      · simp [ht, hf, htop, hff]
  · simp [ht, hlatch]

theorem initAboutBlank_interceptors (env : Env) (s : St) :
    (initAboutBlank env s).2.page.linkInterceptors = s.page.linkInterceptors +
      (if s.mgr.aboutBlankRunning = false ∧
          getItem s.page.localStorage "aboutBlank" = some "true" ∧
          truthy (getItem s.page.sessionStorage "aboutBlankActivated") = false ∧
          env.frameProbe = FrameProbe.framed
       then 1 else 0) := by
  unfold initAboutBlank
  cases hl : s.mgr.aboutBlankRunning with
  | true => simp
  | false =>
    by_cases ht : getItem s.page.localStorage "aboutBlank" = some "true"
    · cases hf : truthy (getItem s.page.sessionStorage "aboutBlankActivated") with
      | true => simp [ht, hf]
      | false =>
        cases hp : env.frameProbe with
        | throws => simp [ht, hf]
        | framed => simp [ht, hf, initIframeLinkInterception]
        | top =>
          cases hu : includes env.userAgent "Firefox" with
          | true => simp [ht, hf]
          | false => cases ho : env.popup <;> simp [ht, hf]
    · simp [ht]

/-- C13, refuted as stated: after a first call whose popup was blocked, a
second call on the same manager attempts the popup again and raises the alert
again. -/
theorem second_call_after_blocked_counterexample :
    (initAboutBlank { chromeEnv with popup := PopupResult.null } (freshSt cloakPage)).2.log =
      [Effect.windowOpen "about:blank" "_blank",
       Effect.alert "Please allow popups and redirects for about:blank cloak to work."] ∧
    (initAboutBlank { chromeEnv with popup := PopupResult.null }
      (initAboutBlank { chromeEnv with popup := PopupResult.null } (freshSt cloakPage)).2).2.log =
      [Effect.windowOpen "about:blank" "_blank",
       Effect.alert "Please allow popups and redirects for about:blank cloak to work.",
       Effect.windowOpen "about:blank" "_blank",
       Effect.alert "Please allow popups and redirects for about:blank cloak to work."] := by
  decide

/-- C13, amended: after a first call of `initAboutBlank` that reached
activation (latch clear, toggle "true", session flag absent, top-level,
non-Firefox) and whose popup opened, a second call on the same manager is a
no-op whatever the browser answers: the state, log included, is unchanged.
After a first call whose popup was blocked, a second call in a top-level
non-Firefox window attempts the popup again. -/
theorem second_call_noop_after_success (env env' : Env) (s : St)
    (hlatch : s.mgr.aboutBlankRunning = false)
    (htoggle : getItem s.page.localStorage "aboutBlank" = some "true")
    (hflag : getItem s.page.sessionStorage "aboutBlankActivated" = none)
    (htop : env.frameProbe = FrameProbe.top)
    (hua : includes env.userAgent "Firefox" = false) :
    (env.popup = PopupResult.opened →
      initAboutBlank env' (initAboutBlank env s).2 =
        (Completion.returned, (initAboutBlank env s).2)) ∧
    (env.popup ≠ PopupResult.opened → env'.frameProbe = FrameProbe.top →
      includes env'.userAgent "Firefox" = false →
      (initAboutBlank env' (initAboutBlank env s).2).2.log =
        (initAboutBlank env s).2.log ++ Effect.windowOpen "about:blank" "_blank" ::
          attemptTail env' s.page.localStorage) := by
  have hf : truthy (getItem s.page.sessionStorage "aboutBlankActivated") = false := by
    rw [hflag]; rfl
  obtain ⟨_, _, a3, a4, a5⟩ := initAboutBlank_attempt env s hlatch htoggle hf htop hua
  constructor
  · intro ho
    apply initAboutBlank_latched
    rw [a4]; simp [ho]
  · intro ho htop' hua'
    simp only [ho, if_false] at a4 a5
    obtain ⟨_, r2, _, _, _⟩ := initAboutBlank_attempt env' (initAboutBlank env s).2 a4
      (by rw [a3]; exact htoggle) (by rw [a5]; rfl) htop' hua'
    rw [r2, a3]

/-- Witness for C13: the sample page, first in a window whose popup opens. -/
theorem second_call_noop_after_success_witness :
    initAboutBlank { chromeEnv with popup := PopupResult.null }
        (initAboutBlank chromeEnv (freshSt cloakPage)).2 =
      (Completion.returned, (initAboutBlank chromeEnv (freshSt cloakPage)).2) :=
  (second_call_noop_after_success chromeEnv { chromeEnv with popup := PopupResult.null }
    (freshSt cloakPage) (by decide) (by decide) (by decide) (by decide) (by decide)).1
    (by decide)

/-- C14, the failing input: with the toggle "true", no session flag and a
frame probe that throws, `initAboutBlank` sets the latch, survives the guarded
probe and then throws at the unguarded `window !== top` of line 428; the latch
stays set, no link interception is installed, and every later call returns at
the latch. -/
theorem throwing_probe_leaves_latch_set :
    (initAboutBlank { chromeEnv with frameProbe := FrameProbe.throws } (freshSt cloakPage)).1
      = Completion.threw ∧
    (initAboutBlank { chromeEnv with frameProbe := FrameProbe.throws }
      (freshSt cloakPage)).2.mgr.aboutBlankRunning = true ∧
    (initAboutBlank { chromeEnv with frameProbe := FrameProbe.throws }
      (freshSt cloakPage)).2.page.linkInterceptors = 0 ∧
    initAboutBlank { chromeEnv with frameProbe := FrameProbe.framed }
      (initAboutBlank { chromeEnv with frameProbe := FrameProbe.throws } (freshSt cloakPage)).2
      = (Completion.returned,
         (initAboutBlank { chromeEnv with frameProbe := FrameProbe.throws }
           (freshSt cloakPage)).2) := by
  decide

/-- C15, refuted as stated: in a frame with the toggle "true" and no session
flag, `initAboutBlank` installs the link interception although the flag is
absent before and after the call. -/
theorem interception_without_flag_counterexample :
    getItem cloakPage.sessionStorage "aboutBlankActivated" = none ∧
    (initAboutBlank { chromeEnv with frameProbe := FrameProbe.framed }
      (freshSt cloakPage)).2.page.linkInterceptors = cloakPage.linkInterceptors + 1 ∧
    getItem (initAboutBlank { chromeEnv with frameProbe := FrameProbe.framed }
      (freshSt cloakPage)).2.page.sessionStorage "aboutBlankActivated" = none := by
  decide

theorem applySettings_interceptors (s : St) :
    (applySettings s).page.linkInterceptors = s.page.linkInterceptors := by
  unfold applySettings
  by_cases h1 : s.mgr.settings.customTitle = "" <;>
    by_cases h2 : s.mgr.settings.customFavicon = "" <;> simp [h1, h2]

theorem initSettingsModal_interceptors (s : St) :
    (initSettingsModal s).page.linkInterceptors = s.page.linkInterceptors := by
  unfold initSettingsModal bindSettingsEvents createSettingsModal
  cases h : s.page.settingsModal <;> simp [h]

theorem init_interceptors (env : Env) (s : St) :
    (init env s).page.linkInterceptors = s.page.linkInterceptors +
      (if inFrame env = true ∧
          getItem s.page.sessionStorage "aboutBlankActivated" = some "true"
       then 1 else 0) := by
  obtain ⟨_, _, t3, _, _⟩ := init_prefix_frame s
  have hc := (initCloakCheck_frame env
    (initSettingsModal (initPanicSystem (applySettings (loadSettings s))))).1
  have hi : (initSettingsModal (initPanicSystem (applySettings
      (loadSettings s)))).page.linkInterceptors = s.page.linkInterceptors := by
    rw [initSettingsModal_interceptors]
    show (applySettings (loadSettings s)).page.linkInterceptors = _
    rw [applySettings_interceptors]
    rfl
  simp only [init, initFrameCheck, initIframeLinkInterception]
  rw [hc, t3]
  cases inFrame env <;>
    by_cases hf : getItem s.page.sessionStorage "aboutBlankActivated" = some "true" <;>
    simp [hf, hc, hi]

/-- C15, amended: `init` installs the frame link interception exactly when
the context is an embedded frame (probe not top, or throwing) and the session
flag is "true"; `initAboutBlank` installs it exactly when it passes its guards
(latch clear, toggle "true", session flag absent or empty) in an embedded
frame whose probe answers, that is, in a frame where the session flag is not
set. -/
theorem interception_installed_iff (env : Env) (s : St) :
    (init env s).page.linkInterceptors = s.page.linkInterceptors +
      (if inFrame env = true ∧
          getItem s.page.sessionStorage "aboutBlankActivated" = some "true"
       then 1 else 0) ∧
    (initAboutBlank env s).2.page.linkInterceptors = s.page.linkInterceptors +
      (if s.mgr.aboutBlankRunning = false ∧
          getItem s.page.localStorage "aboutBlank" = some "true" ∧
          (getItem s.page.sessionStorage "aboutBlankActivated" = none ∨
           getItem s.page.sessionStorage "aboutBlankActivated" = some "") ∧
          env.frameProbe = FrameProbe.framed
       then 1 else 0) := by
  refine ⟨init_interceptors env s, ?_⟩
  have h := initAboutBlank_interceptors env s
  simp only [truthy_eq_false_iff] at h
  exact h

/-! ## Claims on the settings modal -/

theorem bindSettingsEvents_idem (s : St) :
    bindSettingsEvents (bindSettingsEvents s) = bindSettingsEvents s := by
  unfold bindSettingsEvents
  cases hm : s.page.settingsModal with
  | none => simp [hm]
  | some modal =>
    cases hc : modal.content with
    | none => simp [hc]
    | some c =>
      cases hcb : c.closeBound <;> cases hfb : c.formBound <;>
        cases hw : s.mgr.modalClickHandler <;> simp [hc, hcb, hfb]

theorem bindSettingsEvents_iterate (s : St) (n : Nat) :
    Nat.iterate bindSettingsEvents (n + 1) s = bindSettingsEvents s := by
  induction n with
  | zero => rfl
  | succ k ih =>
    rw [Function.iterate_succ_apply', ih, bindSettingsEvents_idem]

theorem initFrameCheck_page (env : Env) (s : St) :
    (initFrameCheck env s).page.settingsModal = s.page.settingsModal ∧
    (initFrameCheck env s).page.windowClickHandlers = s.page.windowClickHandlers ∧
    (initFrameCheck env s).mgr = s.mgr := by
  unfold initFrameCheck initIframeLinkInterception
  split <;> simp

theorem applySettings_window (s : St) :
    (applySettings s).page.windowClickHandlers = s.page.windowClickHandlers := by
  unfold applySettings
  by_cases h1 : s.mgr.settings.customTitle = "" <;>
    by_cases h2 : s.mgr.settings.customFavicon = "" <;> simp [h1, h2]

/-- The modal and its bindings right after `new SettingsManager()` on a page
that had no `#settingsModal`. -/
theorem construct_modal (env : Env) (p : Page) (hmodal : p.settingsModal = none) :
    (construct env p).page.settingsModal = some
      { display := "none"
        content := some { freshModalContent with
          resetClick := 1, checkChange := 1, closeBound := true, closeClick := 1
          formBound := true, formSubmit := 1 } } ∧
    (construct env p).page.windowClickHandlers = p.windowClickHandlers + 1 ∧
    (construct env p).mgr.modalClickHandler = true := by
  have h1 : (initPanicSystem (applySettings (loadSettings (freshSt p)))).page.settingsModal
      = none := by
    show (applySettings (loadSettings (freshSt p))).page.settingsModal = none
    rw [(applySettings_frame _).2.2.2.2.2.2]; exact hmodal
  have h2 : (initPanicSystem (applySettings (loadSettings (freshSt p)))).page.windowClickHandlers
      = p.windowClickHandlers := by
    show (applySettings (loadSettings (freshSt p))).page.windowClickHandlers = _
    rw [applySettings_window]; rfl
  have h3 : (initPanicSystem (applySettings (loadSettings (freshSt p)))).mgr.modalClickHandler
      = false := by
    show (applySettings (loadSettings (freshSt p))).mgr.modalClickHandler = false
    rw [(applySettings_frame _).1]; rfl
  obtain ⟨f1, f2, f3⟩ := initFrameCheck_page env (initCloakCheck env
    (initSettingsModal (initPanicSystem (applySettings (loadSettings (freshSt p))))))
  have hc := (initCloakCheck_frame env
    (initSettingsModal (initPanicSystem (applySettings (loadSettings (freshSt p)))))).1
  have hcm : (initCloakCheck env (initSettingsModal (initPanicSystem (applySettings
      (loadSettings (freshSt p)))))).mgr.modalClickHandler =
      (initSettingsModal (initPanicSystem (applySettings
      (loadSettings (freshSt p))))).mgr.modalClickHandler := by
    unfold initCloakCheck
    simp only
    split
    · split
      · split <;> rfl
      · rfl
    · rfl
  show (init env (freshSt p)).page.settingsModal = _ ∧
    (init env (freshSt p)).page.windowClickHandlers = _ ∧
    (init env (freshSt p)).mgr.modalClickHandler = true
  simp only [init]
  rw [f1, f2, f3, hc, hcm]
  simp [initSettingsModal, createSettingsModal, bindSettingsEvents, h1, h2, h3,
    freshModalContent]

theorem bindSettingsEvents_fixed (s : St) (modal : ModalEl) (c : ModalContent)
    (hm : s.page.settingsModal = some modal) (hc : modal.content = some c)
    (hcb : c.closeBound = true) (hfb : c.formBound = true)
    (hw : s.mgr.modalClickHandler = true) : bindSettingsEvents s = s := by
  obtain ⟨mgr, page, log⟩ := s
  obtain ⟨d, content⟩ := modal
  simp only at hm hc hw
  subst hc
  unfold bindSettingsEvents
  simp only [hm, hcb, hfb, hw, Option.map]
  cases mgr
  cases page
  simp_all

/-- C17: `bindSettingsEvents` is idempotent: in every state, calling it any
number of times beyond the first changes nothing.  On a page that had no
`#settingsModal`, after construction and any number of further calls (the
50 ms fallback retry included) there is one click handler on the close
control, one submit handler on the form and one outside-click handler more on
the window than before. -/
theorem bind_settings_events_idempotent (s : St) (n : Nat) (env : Env) (p : Page)
    (hmodal : p.settingsModal = none) :
    Nat.iterate bindSettingsEvents (n + 1) s = bindSettingsEvents s ∧
    closeClickHandlers (Nat.iterate bindSettingsEvents n (construct env p)) = 1 ∧
    formSubmitHandlers (Nat.iterate bindSettingsEvents n (construct env p)) = 1 ∧
    (Nat.iterate bindSettingsEvents n (construct env p)).page.windowClickHandlers =
      p.windowClickHandlers + 1 := by
  obtain ⟨c1, c2, c3⟩ := construct_modal env p hmodal
  have hfix : bindSettingsEvents (construct env p) = construct env p :=
    bindSettingsEvents_fixed _ _ _ c1 rfl rfl rfl c3
  have hiter : Nat.iterate bindSettingsEvents n (construct env p) = construct env p := by
    cases n with
    | zero => rfl
    | succ k => rw [bindSettingsEvents_iterate, hfix]
  refine ⟨bindSettingsEvents_iterate s n, ?_, ?_, ?_⟩
  · rw [hiter]; simp [closeClickHandlers, modalContent, c1]
  · rw [hiter]; simp [formSubmitHandlers, modalContent, c1]
  · rw [hiter]; exact c2

/-- Witness for C17: the sample page, two further calls. -/
theorem bind_settings_events_idempotent_witness :
    cloakPage.settingsModal = none ∧
    closeClickHandlers (Nat.iterate bindSettingsEvents 2 (construct chromeEnv cloakPage)) = 1 ∧
    formSubmitHandlers (Nat.iterate bindSettingsEvents 2 (construct chromeEnv cloakPage)) = 1 :=
  ⟨rfl,
    (bind_settings_events_idempotent (freshSt cloakPage) 2 chromeEnv cloakPage rfl).2.1,
    (bind_settings_events_idempotent (freshSt cloakPage) 2 chromeEnv cloakPage rfl).2.2.1⟩

theorem init_bare_modal (env : Env) (s : St) (d : String)
    (hm : s.page.settingsModal = some { display := d, content := none }) :
    (init env s).page.settingsModal = some { display := d, content := none } := by
  have h1 : (initPanicSystem (applySettings (loadSettings s))).page.settingsModal
      = some { display := d, content := none } := by
    show (applySettings (loadSettings s)).page.settingsModal = _
    rw [(applySettings_frame _).2.2.2.2.2.2]; exact hm
  have hc := (initCloakCheck_frame env
    (initSettingsModal (initPanicSystem (applySettings (loadSettings s))))).1
  simp only [init]
  rw [(initFrameCheck_page env _).1, hc]
  simp [initSettingsModal, createSettingsModal, bindSettingsEvents, h1]

/-- Whatever `window.settingsManager` is, a click on the settings button of a
page without `#settingsModal` ends with a bare, displayed modal and an
exception from `populateSettingsForm`. -/
theorem settingsBtnHandler_bare_modal (env : Env) (w : World)
    (hmodal : w.page.settingsModal = none) :
    (settingsBtnHandler env true w).1 = Completion.threw ∧
    (settingsBtnHandler env true w).2.page.settingsModal =
      some { display := "block", content := none } := by
  cases hmgr : w.settingsManager with
  | none =>
    have hi := init_bare_modal env
      { mgr := newManager
        page := { w.page with settingsModal := some { display := "none", content := none } }
        log := w.log ++ [Effect.preventDefault, Effect.stopPropagation] } "none" rfl
    simp [settingsBtnHandler, ensureSettingsModal, hmodal, hmgr, hi, populateSettingsForm]
  | some m =>
    simp [settingsBtnHandler, ensureSettingsModal, hmodal, hmgr, createSettingsModal,
      populateSettingsForm]

/-- C18, the failing input: on a page that is still loading (no manager, no
`#settingsModal`) the settings-button click handler appends a bare div, the
constructor's `createSettingsModal` then finds that div and returns without
writing the form, the bare modal is displayed, and `populateSettingsForm`
throws at its first missing input; the script's later start-up does not
repair the modal, and a second click throws again. -/
theorem settings_button_leaves_bare_modal :
    loadingWorld.page.settingsModal = none ∧
    (settingsBtnHandler chromeEnv true loadingWorld).1 = Completion.threw ∧
    (settingsBtnHandler chromeEnv true loadingWorld).2.page.settingsModal =
      some { display := "block", content := none } ∧
    (settingsReady chromeEnv
      (settingsBtnHandler chromeEnv true loadingWorld).2).page.settingsModal =
      some { display := "block", content := none } ∧
    (settingsBtnHandler chromeEnv true (settingsReady chromeEnv
      (settingsBtnHandler chromeEnv true loadingWorld).2)).1 = Completion.threw := by
  decide

/-! ## Claims on the frame link interception handler -/

theorem navigateFrame_once (fe : FrameEnv) (href : String) :
    (∃ i, navigateFrame fe href = [Effect.setIframeSrc i href]) ∨
    navigateFrame fe href = [Effect.setLocationHref href] ∨
    navigateFrame fe href = [Effect.locationReplace href] := by
  unfold navigateFrame
  cases fe.parent with
  | noParent => simp
  | denied => simp
  | frames list =>
    simp only
    cases h1 : findFrame (fun f => f.isSelf == some true) list 0 with
    | some i => exact Or.inl ⟨i, rfl⟩
    | none =>
      simp only
      cases h2 : findFrame (fun f => !(f.src == "") &&
          includes f.src (beforeQuery fe.locationHref)) list 0 with
      | some i => exact Or.inl ⟨i, rfl⟩
      | none => exact Or.inr (Or.inl rfl)

theorem linkInterceptionHandler_eq (fe : FrameEnv) (e : ClickEvent) (link : Anchor)
    (hlink : e.link = some link) (hhref : link.href ≠ "") :
    linkInterceptionHandler fe e =
      if link.href ≠ "#" ∧ startsWith link.href "javascript:" = false ∧
          sameOrigin fe link = true ∧ isNewTabRequest link e = false
      then [Effect.preventDefault, Effect.stopPropagation, Effect.stopImmediatePropagation]
        ++ navigateFrame fe link.href
      else [] := by
  unfold linkInterceptionHandler sameOrigin isNewTabRequest
  simp only [hlink, hhref, if_false]
  by_cases h1 : link.href = "#"
  · simp [h1]
  · cases h2 : startsWith link.href "javascript:" with
    | true => simp [h1]
    | false =>
      cases ho : link.origin with
      | none => simp [h1]
      | some o =>
        by_cases h3 : o = fe.origin
        · by_cases h4 : link.target = "_blank" <;> cases e.ctrlKey <;> cases e.metaKey <;>
            cases e.shiftKey <;> simp [h1, h3, h4]
        · simp [h1, h3]

/-- Outside the claim's setting: on a page whose origin is opaque ("null") a
`javascript:` link passes the handler's string comparison of origins and is
skipped all the same. -/
theorem javascript_link_on_opaque_origin :
    sameOrigin localFileFrame
      { href := "javascript:void(0)", target := "", origin := some "null" } = true ∧
    linkInterceptionHandler localFileFrame
      (plainClick { href := "javascript:void(0)", target := "", origin := some "null" })
      = [] := by
  decide

/-- C16: for every click on a link of a page with a real (not opaque) origin,
the link being an anchor with an href, whose resolved address `link.href` is
never the bare "#" and has the opaque origin "null" when it is a
`javascript:` address, the interception handler cancels the event and
navigates by itself, once, to the link's address (by rewriting the owning
iframe's src, by assigning the location, or by `location.replace`) if and
only if the link is same-origin with the current page and the click is not a
new-tab request (target "_blank", or Ctrl, Meta or Shift held); in every
other case, so for cross-origin links and new-tab requests, it does
nothing. -/
theorem link_interception_iff (fe : FrameEnv) (e : ClickEvent) (link : Anchor)
    (hlink : e.link = some link) (hhref : link.href ≠ "")
    (hresolved : link.href ≠ "#")
    (hjs : startsWith link.href "javascript:" = true → link.origin = some "null")
    (hpage : fe.origin ≠ "null") :
    (linkInterceptionHandler fe e =
        [Effect.preventDefault, Effect.stopPropagation, Effect.stopImmediatePropagation]
          ++ navigateFrame fe link.href ↔
      (sameOrigin fe link = true ∧ isNewTabRequest link e = false)) ∧
    (linkInterceptionHandler fe e = [] ↔
      ¬ (sameOrigin fe link = true ∧ isNewTabRequest link e = false)) ∧
    ((∃ i, navigateFrame fe link.href = [Effect.setIframeSrc i link.href]) ∨
      navigateFrame fe link.href = [Effect.setLocationHref link.href] ∨
      navigateFrame fe link.href = [Effect.locationReplace link.href]) := by
  have hnojs : sameOrigin fe link = true → startsWith link.href "javascript:" = false := by
    intro hso
    cases hs : startsWith link.href "javascript:" with
    | false => rfl
    | true =>
      have ho := hjs hs
      simp only [sameOrigin, ho, beq_iff_eq, Option.some.injEq] at hso
      exact absurd hso.symm hpage
  have hcond : (link.href ≠ "#" ∧ startsWith link.href "javascript:" = false ∧
      sameOrigin fe link = true ∧ isNewTabRequest link e = false) ↔
      (sameOrigin fe link = true ∧ isNewTabRequest link e = false) := by
    constructor
    · rintro ⟨_, _, h3, h4⟩; exact ⟨h3, h4⟩
    · rintro ⟨h3, h4⟩; exact ⟨hresolved, hnojs h3, h3, h4⟩
  rw [linkInterceptionHandler_eq fe e link hlink hhref]
  by_cases hw : link.href ≠ "#" ∧ startsWith link.href "javascript:" = false ∧
      sameOrigin fe link = true ∧ isNewTabRequest link e = false
  · rw [if_pos hw]
    refine ⟨⟨fun _ => hcond.mp hw, fun _ => rfl⟩, ?_, navigateFrame_once fe link.href⟩
    constructor
    · intro h; simp at h
    · intro h; exact absurd (hcond.mp hw) h
  · rw [if_neg hw]
    refine ⟨?_, ⟨fun _ h => hw (hcond.mpr h), fun _ => rfl⟩, navigateFrame_once fe link.href⟩
    constructor
    · intro h; simp at h
    · intro h; exact absurd (hcond.mpr h) hw

/-- Witness for C16: a plain click on a hash link of the cloaked frame, whose
resolved address is the frame's own address followed by "#"; it is cancelled
and the owning iframe's src is rewritten. -/
theorem link_interception_iff_witness :
    "https://canlite.example/play?_t=1700000000000#" ≠ "" ∧
    "https://canlite.example/play?_t=1700000000000#" ≠ "#" ∧
    cloakedFrame.origin ≠ "null" ∧
    linkInterceptionHandler cloakedFrame
      (plainClick { href := "https://canlite.example/play?_t=1700000000000#", target := ""
                    origin := some "https://canlite.example" }) =
      [Effect.preventDefault, Effect.stopPropagation, Effect.stopImmediatePropagation,
       Effect.setIframeSrc 0 "https://canlite.example/play?_t=1700000000000#"] :=
  ⟨by decide, by decide, by decide,
    ((link_interception_iff cloakedFrame
      (plainClick { href := "https://canlite.example/play?_t=1700000000000#", target := ""
                    origin := some "https://canlite.example" })
      { href := "https://canlite.example/play?_t=1700000000000#", target := ""
        origin := some "https://canlite.example" } rfl (by decide) (by decide)
      (fun h => absurd h (by decide)) (by decide)).1.2 (by decide)).trans (by decide)⟩

/-! ## Claims on the popunder timing -/

/-- What `shouldOpenPopunder` computes: the five-minute `interval` of line 42
against the stored time, read as 0 when absent or not a number. -/
theorem shouldOpenPopunder_iff (ls : Storage) (now : Int) (pathname : String) :
    shouldOpenPopunder ls now pathname = true ↔
      (now - (parseInt10 (getItem ls "lastPopunderTime")).getD 0 ≥ 300000 ∧
        pathname ≠ "/") := by
  simp [shouldOpenPopunder, interval]

/-- C19, the failing input: five minutes after a stored `lastPopunderTime`,
on a path other than "/", `shouldOpenPopunder` already returns true although
fewer than the thirty minutes of the claim (and of the comment on `interval`)
have passed; `interval` is 300,000 ms, not 1,800,000 ms. -/
theorem popunder_after_five_minutes :
    getItem [("lastPopunderTime", "1700000000000")] "lastPopunderTime"
      = some "1700000000000" ∧
    ((1700000300000 : Int) - 1700000000000 < thirtyMinutes) ∧
    shouldOpenPopunder [("lastPopunderTime", "1700000000000")] 1700000300000 "/play" = true ∧
    interval = 300000 ∧
    thirtyMinutes = 1800000 := by
  decide

end Canlite
